import Mathlib

/-!
Verification of the contentbot research-aggregation and prompt-assembly
pipeline.  The definitions in this file are shallow embeddings of the
JavaScript functions in the repository (file and line references are given
on each definition).  Network and JSON.parse outcomes are modelled as
explicit inputs: an adapter receives the outcome of each HTTPS call it
would issue and returns the list of request URLs it issued together with
the items it resolves.
-/

namespace ContentBot

/-- Find the index of the first occurrence of `pat` in `s` (as char lists). -/
def findSub (pat : List Char) : List Char → Option Nat
  | [] => if pat = [] then some 0 else none
  | c :: t => if pat.isPrefixOf (c :: t) then some 0 else (findSub pat t).map (· + 1)

/-- Index of the first occurrence of `pat` in `s` at or after index `i`. -/
def strFind (s pat : String) (i : Nat) : Option Nat :=
  (findSub pat.toList (s.toList.drop i)).map (· + i)

/-- Substring of `s` from index `a` (inclusive) to `b` (exclusive). -/
def strSlice (s : String) (a b : Nat) : String :=
  String.mk ((s.toList.drop a).take (b - a))

/-- Auxiliary loop for global non-overlapping replacement (fuel-bounded). -/
def replaceAllAux (pat rep : List Char) : Nat → List Char → List Char
  | 0, s => s
  | fuel + 1, s =>
    match s with
    | [] => []
    | c :: t =>
      if pat ≠ [] ∧ pat.isPrefixOf (c :: t) then
        rep ++ replaceAllAux pat rep fuel ((c :: t).drop pat.length)
      else
        c :: replaceAllAux pat rep fuel t

/-- JS `s.replace(/pat/g, rep)` for a literal pattern: replace every
non-overlapping occurrence, scanning left to right. -/
def replaceAll (s pat rep : String) : String :=
  String.mk (replaceAllAux pat.toList rep.toList s.toList.length s.toList)

/-- Auxiliary loop unwrapping CDATA sections (fuel-bounded). -/
def stripCdataAux : Nat → List Char → List Char
  | 0, s => s
  | fuel + 1, s =>
    match findSub "<![CDATA[".toList s with
    | none => s
    | some i =>
      match findSub "]]>".toList (s.drop (i + 9)) with
      | none => s
      | some j =>
        s.take i ++ (s.drop (i + 9)).take j
          ++ stripCdataAux fuel (s.drop (i + 9 + j + 3))

/-- JS `s.replace(/<!\[CDATA\[(.*?)\]\]>/g, "$1")`: unwrap each CDATA
marker pair, keeping the wrapped text. -/
def stripCdata (s : String) : String :=
  String.mk (stripCdataAux s.toList.length s.toList)

/-- Auxiliary loop removing `<...>` tag spans (fuel-bounded). -/
def stripTagsAux : Nat → List Char → List Char
  | 0, s => s
  | fuel + 1, s =>
    match findSub "<".toList s with
    | none => s
    | some i =>
      match findSub ">".toList (s.drop (i + 1)) with
      | none => s
      | some j => s.take i ++ stripTagsAux fuel (s.drop (i + 1 + j + 1))

/-- JS `s.replace(/<.*?>/g, "")`: drop each shortest `<...>` span.  (The
source regex `.` does not cross newlines; the theorems below never depend
on tag spans containing newlines.) -/
def stripTags (s : String) : String :=
  String.mk (stripTagsAux s.toList.length s.toList)

/-- JS `encodeURIComponent` restricted to ASCII input: characters outside
the unreserved set are percent-encoded. -/
def hexDigit (n : Nat) : Char :=
  if n < 10 then Char.ofNat (48 + n) else Char.ofNat (55 + n)

/-- Percent-encoding of one ASCII code point. -/
def percentEncode (n : Nat) : String :=
  String.mk ['%', hexDigit (n / 16 % 16), hexDigit (n % 16)]

/-- Characters `encodeURIComponent` leaves unescaped. -/
def uriUnreserved (c : Char) : Bool :=
  c.isAlphanum || c = '-' || c = '_' || c = '.' || c = '!' || c = '~'
    || c = '*' || c = '\x27' || c = '(' || c = ')'

/-- JS `encodeURIComponent` (ASCII fragment; all concrete inputs used in
this file are ASCII). -/
def encodeURIComponent (s : String) : String :=
  String.join (s.toList.map fun c =>
    if uriUnreserved c then String.mk [c] else percentEncode c.toNat)

/-- JS whitespace as trimmed by `String.prototype.trim` (ASCII fragment;
all concrete inputs in this file are ASCII). -/
def isJsSpace (c : Char) : Bool :=
  c = ' ' || c = '\t' || c = '\n' || c = '\r'

/-- JS `s.trim()`. -/
def jsTrim (s : String) : String :=
  String.mk (((s.toList.dropWhile isJsSpace).reverse.dropWhile isJsSpace).reverse)

/-- Auxiliary loop of `jsSplit` (fuel-bounded; `acc` holds the current
piece reversed). -/
def jsSplitAux (sep : List Char) : Nat → List Char → List Char → List String
  | 0, acc, s => [String.mk (acc.reverse ++ s)]
  | fuel + 1, acc, s =>
    if sep ≠ [] ∧ sep.isPrefixOf s then
      String.mk acc.reverse :: jsSplitAux sep fuel [] (s.drop sep.length)
    else
      match s with
      | [] => [String.mk acc.reverse]
      | c :: t => jsSplitAux sep fuel (c :: acc) t

/-- JS `s.split(sep)` for a non-empty literal separator (`"".split(",")`
is `[""]`, and empty pieces are kept). -/
def jsSplit (s sep : String) : List String :=
  jsSplitAux sep.toList (s.toList.length + 1) [] s.toList

/-- JSON values as produced by `JSON.parse`.  Numbers are modelled as
integers; none of the verified properties depend on non-integral or
non-finite numbers. -/
inductive Json where
  | null : Json
  | bool : Bool → Json
  | num : Int → Json
  | str : String → Json
  | arr : List Json → Json
  | obj : List (String × Json) → Json

/-- First binding of key `k` in the field list of an object. -/
def jLookup : List (String × Json) → String → Option Json
  | [], _ => none
  | (k', v) :: t, k => if k' = k then some v else jLookup t k

/-- JS assignment `o[k] = v` on an object: update the existing binding in
place, else append a new one. -/
def jSet : List (String × Json) → String → Json → List (String × Json)
  | [], k, v => [(k, v)]
  | (k', w) :: t, k, v =>
    if k' = k then (k', v) :: t else (k', w) :: jSet t k v

/-- JS truthiness of a JSON value. -/
def jsonTruthy : Json → Bool
  | .null => false
  | .bool b => b
  | .num n => n != 0
  | .str s => s != ""
  | .arr _ => true
  | .obj _ => true

/-- JS truthiness where `none` stands for `undefined`. -/
def truthyO : Option Json → Bool
  | none => false
  | some v => jsonTruthy v

/-- Property read `v.k` that cannot throw: returns the field of an object
and `undefined` (`none`) on any other receiver.  Used where the source
reads fields of values it has already guarded. -/
def jsGet (v : Json) (k : String) : Option Json :=
  match v with
  | .obj kvs => jLookup kvs k
  | _ => none

/-- Property read `v.k` with JS exception behaviour: reading from `null`
throws a `TypeError`, reading a missing field from any non-null value
yields `undefined` (`none`). -/
def jsGetE (v : Json) (k : String) : Except String (Option Json) :=
  match v with
  | .null => .error ("Cannot read properties of null (reading \x27" ++ k ++ "\x27)")
  | .obj kvs => .ok (jLookup kvs k)
  | _ => .ok none

/-- Property read on a possibly-`undefined` receiver: `undefined.k` also
throws. -/
def jsGetO (v : Option Json) (k : String) : Except String (Option Json) :=
  match v with
  | none => .error ("Cannot read properties of undefined (reading \x27" ++ k ++ "\x27)")
  | some w => jsGetE w k

/-- Does `v` equal the JS string `s`?  (`v === "s"` for a known string.) -/
def jsonIsStr (v : Json) (s : String) : Bool :=
  match v with
  | .str t => t = s
  | _ => false

/-- Is the value an array? -/
def jsonIsArr : Json → Bool
  | .arr _ => true
  | _ => false

/-- Is the value `null`? -/
def jsonIsNull : Json → Bool
  | .null => true
  | _ => false

/-- Is the value an object? -/
def jsonIsObj : Json → Bool
  | .obj _ => true
  | _ => false

/-- JS `a || b`: keep `a` when truthy, otherwise `b`. -/
def jsOr (a : Option Json) (b : Json) : Json :=
  match a with
  | some v => if jsonTruthy v then v else b
  | none => b

/-- String interpolation `String(v)` of a JSON value inside a JS template
literal (`undefined` prints as "undefined"). -/
def jsDisplay : Json → String
  | .null => "null"
  | .bool true => "true"
  | .bool false => "false"
  | .num n => toString n
  | .str s => s
  | .arr _ => ""
  | .obj _ => "[object Object]"

/-- Interpolation of a possibly-`undefined` value. -/
def jsDisplayO : Option Json → String
  | none => "undefined"
  | some v => jsDisplay v

/-- Outcome of one raw HTTPS request: either the transport fails, or a
response with a status code and a raw text body arrives. -/
inductive HttpOutcome where
  | transportError (msg : String)
  | response (status : Nat) (body : String)

/-- Outcome of one HTTPS request whose body the source immediately hands
to `JSON.parse`: the body is modelled by the parse result (`.error` is a
body `JSON.parse` rejects, carrying the parse error message). -/
inductive JsonNet where
  | transportError (msg : String)
  | response (status : Nat) (body : Except String Json)

/-- Outcome of a `tavilyClient.search` library call: the promise either
rejects or resolves with a response value. -/
inductive TavilyOutcome where
  | err (msg : String)
  | ok (response : Json)

/-- Entity cleanup applied to Bing RSS `<title>` captures
(src/generate-topics.js:142): `&quot;` → `"`, `&amp;` → `&`, CDATA
unwrapped. -/
def bingCleanTitle (s : String) : String :=
  stripCdata (replaceAll (replaceAll s "&quot;" "\x22") "&amp;" "&")

/-- Cleanup applied to `<description>` captures
(src/generate-topics.js:144): entity cleanup plus `<...>` tag removal. -/
def bingCleanDescription (s : String) : String :=
  stripTags (stripCdata (replaceAll (replaceAll s "&quot;" "\x22") "&amp;" "&"))

/-- One step of the Bing RSS item regex
(src/generate-topics.js:138): from position `pos`, locate `<item>` and
then, in order, `<title>…</title>`, `<link>…</link>`,
`<description>…</description>`, `<pubDate>…</pubDate>` and the closing
`</item>`, each capture running to the nearest closing marker (the lazy
`[\s\S]*?`/`(.*?)` quantifiers of the source regex; the `.`-vs-newline
distinction inside captures and regex backtracking beyond the
nearest-marker reading are not modelled — no theorem below depends on
them).  Returns the article object and the scan position after the
match. -/
def bingMatchFrom (data : String) (pos : Nat) : Option (Json × Nat) :=
  (strFind data "<item>" pos).bind fun p0 =>
  (strFind data "<title>" (p0 + 6)).bind fun q1 =>
  (strFind data "</title>" (q1 + 7)).bind fun r1 =>
  (strFind data "<link>" (r1 + 8)).bind fun q2 =>
  (strFind data "</link>" (q2 + 6)).bind fun r2 =>
  (strFind data "<description>" (r2 + 7)).bind fun q3 =>
  (strFind data "</description>" (q3 + 13)).bind fun r3 =>
  (strFind data "<pubDate>" (r3 + 14)).bind fun q4 =>
  (strFind data "</pubDate>" (q4 + 9)).bind fun r4 =>
  (strFind data "</item>" (r4 + 10)).map fun p1 =>
  (Json.obj
    [("title", .str (bingCleanTitle (strSlice data (q1 + 7) r1))),
     ("link", .str (strSlice data (q2 + 6) r2)),
     ("description", .str (bingCleanDescription (strSlice data (q3 + 13) r3))),
     ("pubDate", .str (strSlice data (q4 + 9) r4)),
     ("source", .str "Bing News")],
   p1 + 7)

/-- The extraction loop of src/generate-topics.js:141: keep matching while
fewer than `rem` articles are collected (fuel-bounded; fuel is the body
length, and every match advances the position). -/
def bingLoop (data : String) : Nat → Nat → Nat → List Json
  | 0, _, _ => []
  | _ + 1, _, 0 => []
  | fuel + 1, pos, rem + 1 =>
    match bingMatchFrom data pos with
    | none => []
    | some (a, next) => a :: bingLoop data fuel next rem

/-- Articles extracted from a Bing RSS body, at most `count` of them. -/
def bingExtract (data : String) (count : Nat) : List Json :=
  bingLoop data (data.toList.length + 1) 0 count

/-- Embedding of fetchBingNewsArticles (src/generate-topics.js:115-168).  Returns the
list of request URLs issued and the resolved article list.  A requested
count ≤ 0 returns immediately; otherwise the count is clamped to 5 and the
single RSS request is issued.  The response status code is never
inspected; a transport error resolves with `[]` (the try/catch of the parse step also resolves `[]`, and the regex loop itself yields `[]` on a
body without matching items). -/
def fetchBingNewsArticles (topic : String) (count : Int) (net : HttpOutcome) :
    List String × List Json :=
  if count ≤ 0 then ([], [])
  else
    let c := min count 5
    let url := "https://www.bing.com/news/search?q=" ++ encodeURIComponent topic
      ++ "&format=rss"
    match net with
    | .transportError _ => ([url], [])
    | .response _ body => ([url], bingExtract body c.toNat)

/-- A single object field whose value may be `undefined`: JS keeps the
property but `JSON.stringify` drops it, so at the value level an
`undefined` field is omitted. -/
def jsField (k : String) (v : Option Json) : List (String × Json) :=
  match v with
  | none => []
  | some w => [(k, w)]

/-- Field list of one Tavily result mapped to an article
(src/generate-topics.js:195-201).  `result.title || ...` defaults apply to
falsy fields, `link` is `result.url` verbatim, and `pubDate` is the
injected current time (the source calls `new Date().toISOString()`). -/
def tavilyArticle (now : String) (r : Json) : Json :=
  Json.obj
    ([("title", jsOr (jsGet r "title") (.str "No title available"))]
      ++ jsField "link" (jsGet r "url")
      ++ [("description",
            jsOr (jsGet r "content") (jsOr (jsGet r "snippet") (.str "No description available"))),
          ("pubDate", .str now),
          ("source", .str "Tavily Search")])

/-- Embedding of fetchTavilyNewsArticles (src/generate-topics.js:176-213).  Here `client`
is the module-level Tavily client handle (`none` when the integration is
not configured).  A requested count ≤ 0 or a missing client returns `[]`
without a search call; a rejected search resolves `[]` via the
`try/catch`; a response without a non-empty `results` array resolves
`[]`.  The request log records the single library search call. -/
def fetchTavilyNewsArticles (topic : String) (count : Int) (client : Option Unit)
    (out : TavilyOutcome) (now : String) : List String × List Json :=
  if count ≤ 0 ∨ client.isNone then ([], [])
  else
    let req := "tavily.search?max_results=" ++ toString (min count 5)
      ++ "&query=latest trends and topics about " ++ topic
    match out with
    | .err _ => ([req], [])
    | .ok resp =>
      if jsonTruthy resp then
        match jsGet resp "results" with
        | some (.arr rs) =>
          if rs.length > 0 then ([req], rs.map (tavilyArticle now)) else ([req], [])
        | _ => ([req], [])
      else ([req], [])

/-- JS truthiness of an optional environment/option string (absent and
empty strings are falsy). -/
def strTruthy : Option String → Bool
  | none => false
  | some s => s != ""

/-- Primitive-value equality as used by `Map` key lookup (SameValueZero):
objects and arrays compare by reference and two separately parsed nodes
are never identical, so they compare unequal here. -/
def jsonPrimEq : Json → Json → Bool
  | .null, .null => true
  | .bool a, .bool b => a == b
  | .num a, .num b => a == b
  | .str a, .str b => a == b
  | _, _ => false

/-- Key equality of the JS Map on possibly-absent values. -/
def optJsonKeyEq : Option Json → Option Json → Bool
  | none, none => true
  | some a, some b => jsonPrimEq a b
  | _, _ => false

/-- JS `new Date(x * 1000)` operand conversion: values whose numeric
coercion is `NaN` (yielding a `RangeError` from `toISOString`) are
`none`.  Non-numeric strings and objects coerce to `NaN`; only
integral numeric strings are modelled. -/
def jsToNumber : Option Json → Option Int
  | some (.num n) => some n
  | some (.bool b) => some (if b then 1 else 0)
  | some .null => some 0
  | some (.str s) => s.toInt?
  | _ => none

/-- Model of the toISOString rendering of the platform `Date`
builtin is modelled opaquely (but executably) as a tagged string; no
theorem below inspects it. -/
def dateToISOString (ms : Int) : String :=
  "date-iso:" ++ toString ms

/-- Options of `fetchRedditPosts` (src/scrape-reddit.js:56). -/
structure RedditOptions where
  query : String
  maxCount : Int
  subreddit : Option String
  sort : String
  time : String

/-- The Reddit search URL (src/scrape-reddit.js:62-70): the subreddit form
when a subreddit option is truthy, the sitewide form otherwise. -/
def redditSearchUrl (o : RedditOptions) (limit : Int) : String :=
  if strTruthy o.subreddit then
    "https://www.reddit.com/r/" ++ encodeURIComponent (o.subreddit.getD "")
      ++ "/search.json?q=" ++ encodeURIComponent o.query
      ++ "&restrict_sr=on&sort=" ++ o.sort ++ "&t=" ++ o.time
      ++ "&limit=" ++ toString limit
  else
    "https://www.reddit.com/search.json?q=" ++ encodeURIComponent o.query
      ++ "&sort=" ++ o.sort ++ "&t=" ++ o.time ++ "&limit=" ++ toString limit

/-- The filter `child => child.kind === "t3" && child.data`
(src/scrape-reddit.js:112); reading `kind` from a `null` element throws
(routed to the catch of the handler). -/
def redditKeep (child : Json) : Except String Bool := do
  let k ← jsGetE child "kind"
  if k.elim false (jsonIsStr · "t3") then
    let d ← jsGetE child "data"
    pure (truthyO d)
  else
    pure false

/-- The filter applied element-wise (src/scrape-reddit.js:112). -/
def redditFilter : List Json → Except String (List Json)
  | [] => .ok []
  | child :: t => do
    let keep ← redditKeep child
    let rest ← redditFilter t
    pure (if keep then child :: rest else rest)

/-- The mapping of one kept search child to a post object
(src/scrape-reddit.js:113-130).  A `created_utc` whose numeric coercion is
`NaN` makes `toISOString` throw (routed to the `catch`). -/
def redditPostOf (child : Json) : Except String Json := do
  let dO ← jsGetE child "data"
  let post := dO.getD .null
  match jsToNumber (jsGet post "created_utc") with
  | none => .error "Invalid time value"
  | some n =>
    pure (Json.obj
      (jsField "title" (jsGet post "title")
        ++ jsField "author" (jsGet post "author")
        ++ jsField "subreddit" (jsGet post "subreddit_name_prefixed")
        ++ [("text", jsOr (jsGet post "selftext") (.str "[Link post]")),
            ("url", .str ("https://www.reddit.com" ++ jsDisplayO (jsGet post "permalink")))]
        ++ jsField "external_url" (jsGet post "url")
        ++ jsField "score" (jsGet post "score")
        ++ jsField "num_comments" (jsGet post "num_comments")
        ++ [("created_utc", .str (dateToISOString (n * 1000)))]
        ++ jsField "is_self" (jsGet post "is_self")
        ++ [("platform", .str "Reddit")]))

/-- The `.map` over the kept search children (src/scrape-reddit.js:113). -/
def redditMapPosts : List Json → Except String (List Json)
  | [] => .ok []
  | c :: t => do
    let p ← redditPostOf c
    let r ← redditMapPosts t
    pure (p :: r)

/-- The body handler of the Reddit 200 response
(src/scrape-reddit.js:101-138) after a successful `JSON.parse`: missing
`data`/`data.children` resolves `[]`; a non-array `children` throws at
`.filter` (routed to the `catch`). -/
def redditHandle (v : Json) : Except String (List Json) := do
  let d ← jsGetE v "data"
  if ¬ truthyO d then
    return []
  else
    let ch ← jsGetO d "children"
    if ¬ truthyO ch then
      return []
    else
      match ch with
      | some (.arr children) => do
        let kept ← redditFilter children
        redditMapPosts kept
      | _ => .error "children.filter is not a function"

/-- Embedding of fetchRedditPosts (src/scrape-reddit.js:56-144).  The requested count
is clamped into `[1, 25]` and the search request is always issued (there
is no zero-count guard).  Redirect statuses (300-399), other non-200
statuses, transport errors, `JSON.parse` failures and handler exceptions
all resolve `[]`. -/
def fetchRedditPosts (o : RedditOptions) (net : JsonNet) : List String × List Json :=
  let limit := min (max 1 o.maxCount) 25
  let url := redditSearchUrl o limit
  ([url],
    match net with
    | .transportError _ => []
    | .response status body =>
      if 300 ≤ status ∧ status < 400 then []
      else if status ≠ 200 then []
      else
        match body with
        | .error _ => []
        | .ok v =>
          match redditHandle v with
          | .ok posts => posts
          | .error _ => [])

/-- Options of `fetchYouTubeVideos` (src/scrape-youtube.js:51).  The JS
`type` option is called `vtype` here. -/
structure YouTubeOptions where
  query : String
  maxCount : Int
  order : String
  vtype : String

/-- The YouTube search URL (src/scrape-youtube.js:64). -/
def ytSearchUrl (o : YouTubeOptions) (limit : Int) (key : String) : String :=
  "https://www.googleapis.com/youtube/v3/search?part=snippet&q="
    ++ encodeURIComponent o.query ++ "&type=" ++ o.vtype ++ "&order=" ++ o.order
    ++ "&maxResults=" ++ toString limit ++ "&key=" ++ key

/-- The YouTube batch statistics URL (src/scrape-youtube.js:98). -/
def ytStatsUrl (ids key : String) : String :=
  "https://www.googleapis.com/youtube/v3/videos?part=statistics&id=" ++ ids
    ++ "&key=" ++ key

/-- The filter `item => item.id.kind === "youtube#video"`
(src/scrape-youtube.js:92-93); a missing or `null` `id` throws. -/
def ytKeep (it : Json) : Except String Bool := do
  let idO ← jsGetE it "id"
  let kindO ← jsGetO idO "kind"
  pure (kindO.elim false (jsonIsStr · "youtube#video"))

/-- The filter applied element-wise (src/scrape-youtube.js:92). -/
def ytFilterVideos : List Json → Except String (List Json)
  | [] => .ok []
  | it :: t => do
    let keep ← ytKeep it
    let rest ← ytFilterVideos t
    pure (if keep then it :: rest else rest)

/-- The `item.id.videoId` value of a kept item, as rendered by
`Array.prototype.join` (`undefined`/`null` render empty). -/
def ytVideoIdStr (it : Json) : String :=
  match jsGetE it "id" with
  | .ok (some idv) =>
    match jsGet idv "videoId" with
    | none => ""
    | some .null => ""
    | some v => jsDisplay v
  | _ => ""

/-- The search-response handler up to the point where the statistics
request is built (src/scrape-youtube.js:82-98): yields the kept video
items and the joined id string, `none` when the handler resolves `[]`
before issuing the statistics call (missing/empty `items`, or an empty
joined id string), `.error` when it throws (routed to the `catch`). -/
def ytAfterSearch (v : Json) : Except String (Option (List Json × String)) := do
  let itemsO ← jsGetE v "items"
  if ¬ truthyO itemsO then
    return none
  else
    match itemsO with
    | some (.arr items) =>
      if items.length = 0 then
        return none
      else do
        let kept ← ytFilterVideos items
        let joined := String.intercalate "," (kept.map ytVideoIdStr)
        if joined = "" then return none else return some (kept, joined)
    | _ => .error "items.filter is not a function"

/-- Model of parseInt-or-zero on a statistics field (src/scrape-youtube.js:127):
non-numeric values give `NaN`, hence 0. -/
def parseIntOr0 : Option Json → Int
  | some (.str s) => (s.toInt?).getD 0
  | some (.num n) => n
  | _ => 0

/-- Lookup in the statistics `Map` (src/scrape-youtube.js:110,116):
`statsMap.get(video.id.videoId) || \x7b\x7d` — a miss, or a falsy stored
value, yields the empty object. -/
def ytStatsFor (pairs : List (Option Json × Option Json)) (k : Option Json) : Json :=
  match pairs.find? (fun p => optJsonKeyEq p.fst k) with
  | some (_, some v) => if jsonTruthy v then v else .obj []
  | _ => .obj []

/-- The mapping of one kept search item to a video object
(src/scrape-youtube.js:114-131); a missing `snippet`, `thumbnails` or
`high` throws (routed to the `catch`). -/
def ytVideoObj (pairs : List (Option Json × Option Json)) (it : Json) :
    Except String Json := do
  let idO ← jsGetE it "id"
  let vidO ← jsGetO idO "videoId"
  let stats := ytStatsFor pairs vidO
  let snO ← jsGetE it "snippet"
  let title ← jsGetO snO "title"
  let desc ← jsGetO snO "description"
  let chan ← jsGetO snO "channelTitle"
  let pub ← jsGetO snO "publishedAt"
  let thumbsO ← jsGetO snO "thumbnails"
  let highO ← jsGetO thumbsO "high"
  let urlO ← jsGetO highO "url"
  pure (Json.obj
    (jsField "title" title ++ jsField "description" desc
      ++ jsField "channelTitle" chan ++ jsField "publishedAt" pub
      ++ jsField "thumbnailUrl" urlO ++ jsField "videoId" vidO
      ++ [("url", .str ("https://www.youtube.com/watch?v=" ++ jsDisplayO vidO)),
          ("viewCount", .num (parseIntOr0 (jsGet stats "viewCount"))),
          ("likeCount", .num (parseIntOr0 (jsGet stats "likeCount"))),
          ("commentCount", .num (parseIntOr0 (jsGet stats "commentCount"))),
          ("platform", .str "YouTube")]))

/-- The `[item.id, item.statistics]` pairs backing the statistics `Map`
(src/scrape-youtube.js:110); a `null` element throws. -/
def ytStatsPairs : List Json → Except String (List (Option Json × Option Json))
  | [] => .ok []
  | it :: t => do
    let idO ← jsGetE it "id"
    let stO ← jsGetE it "statistics"
    let rest ← ytStatsPairs t
    pure ((idO, stO) :: rest)

/-- The `.map` over the kept search items (src/scrape-youtube.js:112). -/
def ytMapVideos (pairs : List (Option Json × Option Json)) :
    List Json → Except String (List Json)
  | [] => .ok []
  | it :: t => do
    let v ← ytVideoObj pairs it
    let rest ← ytMapVideos pairs t
    pure (v :: rest)

/-- The statistics-response handler (src/scrape-youtube.js:108-135): build
the id→statistics map from `statsJson.items` (throws unless an array,
routed to the `catch`) and map the kept search items to video objects. -/
def ytVideos (kept : List Json) (sv : Json) : Except String (List Json) := do
  let itemsO ← jsGetE sv "items"
  match itemsO with
  | some (.arr sitems) => do
    let pairs ← ytStatsPairs sitems
    ytMapVideos pairs kept
  | _ => .error "statsJson.items.map is not a function"

/-- Embedding of fetchYouTubeVideos (src/scrape-youtube.js:51-158).  The requested
count is clamped into `[1, 50]`.  A missing API key returns `[]` with no
request.  The search request checks the status; the follow-up statistics
request does not.  Every failure of the statistics call (transport error,
unparseable body, handler exception) resolves `[]`, dropping the videos
found by the search; per-video zero defaults apply only when the
statistics response parses but lacks an entry for that video. -/
def fetchYouTubeVideos (o : YouTubeOptions) (apiKey : Option String)
    (searchNet statsNet : JsonNet) : List String × List Json :=
  let limit := min (max 1 o.maxCount) 50
  if ¬ strTruthy apiKey then ([], [])
  else
    let key := apiKey.getD ""
    let sUrl := ytSearchUrl o limit key
    match searchNet with
    | .transportError _ => ([sUrl], [])
    | .response status body =>
      if status ≠ 200 then ([sUrl], [])
      else
        match body with
        | .error _ => ([sUrl], [])
        | .ok v =>
          match ytAfterSearch v with
          | .error _ => ([sUrl], [])
          | .ok none => ([sUrl], [])
          | .ok (some (kept, ids)) =>
            let stUrl := ytStatsUrl ids key
            match statsNet with
            | .transportError _ => ([sUrl, stUrl], [])
            | .response _ sbody =>
              match sbody with
              | .error _ => ([sUrl, stUrl], [])
              | .ok sv =>
                match ytVideos kept sv with
                | .error _ => ([sUrl, stUrl], [])
                | .ok videos => ([sUrl, stUrl], videos)

/-- Embedding of fetchNewsArticles (src/generate-topics.js:222-242): sequentially
append the Bing articles (when `bingCount > 0`) and then the Tavily
articles (when `tavilyCount > 0` and the client is configured) to the
merged list, in adapter-return order. -/
def fetchNewsArticles (topic : String) (bingCount tavilyCount : Int)
    (bingNet : HttpOutcome) (client : Option Unit) (tavilyOut : TavilyOutcome)
    (now : String) : List Json :=
  (if bingCount > 0 then (fetchBingNewsArticles topic bingCount bingNet).2 else [])
    ++ (if tavilyCount > 0 ∧ client.isSome then
          (fetchTavilyNewsArticles topic tavilyCount client tavilyOut now).2
        else [])

/-- The combined source list of `generateBlogContent`
(src/unnamed/part_001:408): `[...newsArticles, ...redditPosts,
...youtubeVideos]`. -/
def blogSources (newsArticles redditPosts youtubeVideos : List Json) : List Json :=
  newsArticles ++ redditPosts ++ youtubeVideos

/-- Result object of `parseStructuredContent` (src/lib/index.js:123-130). -/
structure StructuredContent where
  title : String
  metaDescription : String
  summary : String
  tags : List String
  body : String
  rawContent : String

/-- Capture of `/MARK:(.*?)(?=NEXT:|$)/s` on `content`: from the first
occurrence of `MARK:` the lazy capture runs to the first following
occurrence of `NEXT:` (or the end of the string); `none` when `MARK:`
does not occur. -/
def sectionCapture (content mark next : String) : Option String :=
  (strFind content mark 0).map fun i =>
    let s := i + mark.toList.length
    strSlice content s ((strFind content next s).getD content.toList.length)

/-- Capture of `/BODY:(.*)/s`: everything after the first `BODY:`. -/
def bodyCapture (content : String) : Option String :=
  (strFind content "BODY:" 0).map fun i =>
    strSlice content (i + 5) content.toList.length

/-- Embedding of parseStructuredContent (src/lib/index.js:110-131): order-independent
marker extraction; each present field is trimmed, a missing marker yields
the empty string (the empty list for TAGS), and a missing BODY marker
falls back to the entire raw content. -/
def parseStructuredContent (content : String) : StructuredContent :=
  let titleM := sectionCapture content "TITLE:" "META_DESCRIPTION:"
  let metaM := sectionCapture content "META_DESCRIPTION:" "SUMMARY:"
  let summaryM := sectionCapture content "SUMMARY:" "TAGS:"
  let tagsM := sectionCapture content "TAGS:" "BODY:"
  let bodyM := bodyCapture content
  let tags :=
    match tagsM with
    | some c => if c ≠ "" then (jsSplit (jsTrim c) ",").map jsTrim else []
    | none => []
  { title := (titleM.map jsTrim).getD ""
    metaDescription := (metaM.map jsTrim).getD ""
    summary := (summaryM.map jsTrim).getD ""
    tags := tags
    body := (bodyM.map jsTrim).getD content
    rawContent := content }

/-- Inputs of the topic-JSON parse flow of `generateTopicIdeas`
(src/bin/generate-topics.js:429-487).  `content` is the raw model
response; `direct` is the outcome of `JSON.parse(content)` and `repaired`
the outcome of `JSON.parse` on the repaired text (both `JSON.parse` calls
are platform builtins, modelled as explicit inputs; `.error` carries the
parse error message). -/
structure TopicParseInput where
  content : String
  direct : Except String Json
  repaired : Except String Json
  category : String
  audience : String
  today : String
  additionalResearch : Json

/-- Conditional backfill of a field on a parsed value: backfill a
missing or falsy field of an object; assignment to a primitive is
silently ignored, and a property assigned to an array is dropped again by
`JSON.stringify`, so both are the identity at the value level. -/
def setIfFalsy (v : Json) (k : String) (d : Json) : Json :=
  match v with
  | .obj kvs => if truthyO (jLookup kvs k) then v else .obj (jSet kvs k d)
  | _ => v

/-- Unconditional `jsonData.k = d` (same non-object conventions). -/
def setField (v : Json) (k : String) (d : Json) : Json :=
  match v with
  | .obj kvs => .obj (jSet kvs k d)
  | _ => v

/-- The success-path normalization applied to a parsed value
(src/bin/generate-topics.js:432-443 and 459-471): backfill `topics`,
`category`, `audience`, `generatedAt`, then attach
`additionalResearch`. -/
def topicNormalize (inp : TopicParseInput) (v : Json) : Json :=
  setField
    (setIfFalsy
      (setIfFalsy
        (setIfFalsy
          (setIfFalsy v "topics" (.arr []))
          "category" (.str inp.category))
        "audience" (.str inp.audience))
      "generatedAt" (.str inp.today))
    "additionalResearch" inp.additionalResearch

/-- The fallback object (src/bin/generate-topics.js:477-485), carrying
the message of the first parse failure. -/
def topicFallback (inp : TopicParseInput) (e1 : String) : Json :=
  Json.obj
    [("category", .str inp.category),
     ("audience", .str inp.audience),
     ("generatedAt", .str inp.today),
     ("topics", .arr []),
     ("rawContent", .str inp.content),
     ("error", .str ("Failed to parse JSON: " ++ e1)),
     ("additionalResearch", inp.additionalResearch)]

/-- The `TypeError` message raised by `jsonData.topics` when `JSON.parse`
returns `null` (that exception is caught by the same `catch` as a parse
failure and routes to the repair path). -/
def nullTopicsMsg : String :=
  "Cannot read properties of null (reading \x27topics\x27)"

/-- The JSON value (the argument of the final `JSON.stringify`) produced
by the parse flow of `generateTopicIdeas`
(src/bin/generate-topics.js:429-487): direct parse, then one repaired
re-parse, then the fallback object.  This function is total: no exception
leaves the parse flow. -/
def generateTopicIdeasResult (inp : TopicParseInput) : Json :=
  let repairPath := fun (e1 : String) =>
    match inp.repaired with
    | .ok v => if jsonIsNull v then topicFallback inp e1 else topicNormalize inp v
    | .error _ => topicFallback inp e1
  match inp.direct with
  | .ok v => if jsonIsNull v then repairPath nullTopicsMsg else topicNormalize inp v
  | .error e1 => repairPath e1

/-- Route predicate: the direct parse attempt enters the first `catch` of
src/bin/generate-topics.js:444 — either `JSON.parse` threw, or it
returned `null` and the `jsonData.topics` read threw a `TypeError`. -/
def directParseFails (inp : TopicParseInput) : Prop :=
  inp.direct = .ok Json.null ∨ ∃ e1, inp.direct = .error e1

/-- Route predicate: the re-parse of the repaired text enters the second
`catch` of src/bin/generate-topics.js:472 in the same two ways. -/
def repairedParseFails (inp : TopicParseInput) : Prop :=
  inp.repaired = .ok Json.null ∨ ∃ e2, inp.repaired = .error e2

/-- Truthiness choice preserving absent results (for template interpolation
chains such as `source.content || source.text || source.description`). -/
def jsOrO (a b : Option Json) : Option Json :=
  if truthyO a then a else b

/-- Interpolation `${v || "d"}` with a string default. -/
def jsDisplayOr (v : Option Json) (d : String) : String :=
  match v with
  | some w => if jsonTruthy w then jsDisplay w else d
  | none => d

/-- Digit grouping used by `Number.prototype.toLocaleString` in the
default `en-US` locale (the locale is constant for the life of the
process). Operates on a reversed digit list. -/
def groupRevAux : Nat → List Char → List Char
  | 0, ds => ds
  | fuel + 1, ds =>
    if ds.length ≤ 3 then ds else ds.take 3 ++ ',' :: groupRevAux fuel (ds.drop 3)

/-- Rendering of toLocaleString for an integer. -/
def localeString (n : Int) : String :=
  let ds := (toString n.natAbs).toList
  (if n < 0 then "-" else "") ++ String.mk (groupRevAux ds.length ds.reverse).reverse

/-- Interpolation `${v?.toLocaleString() || "d"}` (non-primitive receivers
do not occur on adapter-shaped items and are not modelled). -/
def jsLocaleOr (v : Option Json) (d : String) : String :=
  match v with
  | some (.num n) => localeString n
  | some (.str s) => if s ≠ "" then s else d
  | some (.bool true) => "true"
  | _ => d

/-- Snippet line of the prompt blocks: a truthy string field renders as
the prefix, its first 200 characters and an ellipsis, anything else as
the empty string (a non-string truthy value would make the source throw;
adapter items carry strings here). -/
def jsSnippetLine (pre : String) (v : Option Json) : String :=
  match v with
  | some (.str s) => if s ≠ "" then pre ++ String.mk (s.toList.take 200) ++ "..." else ""
  | _ => ""

/-- The `keywords` parameter of `generateTopicIdeas`
(src/bin/generate-topics.js:280): a comma-separated string or an array. -/
inductive KeywordsArg where
  | absent
  | str (s : String)
  | arr (ks : List String)

/-- The news-articles block of the topic prompt
(src/bin/generate-topics.js:286-301). -/
def topicNewsBlock (newsArticles : List Json) : String :=
  if newsArticles.length = 0 then ""
  else
    "\nHere are some recent news articles related to this category that you should use for inspiration:\n\n"
      ++ String.intercalate "\n" (newsArticles.enum.map fun p =>
          "\nArticle " ++ toString (p.1 + 1) ++ ":\nTitle: "
            ++ jsDisplayO (jsGet p.2 "title") ++ "\nDescription: "
            ++ jsDisplayO (jsGet p.2 "description") ++ "\nDate: "
            ++ jsDisplayOr (jsGet p.2 "pubDate") "Recent" ++ "\nLink: "
            ++ jsDisplayO (jsGet p.2 "link") ++ "\n")
      ++ "\n\nPlease use these articles to identify current trends, controversies, or interesting angles for the topic ideas.\n"

/-- The Reddit block of the topic prompt
(src/bin/generate-topics.js:303-321). -/
def topicRedditBlock (redditPosts : List Json) : String :=
  if redditPosts.length = 0 then ""
  else
    "\nHere are some recent Reddit discussions related to this category:\n\n"
      ++ String.intercalate "\n" (redditPosts.enum.map fun p =>
          "\nReddit Post " ++ toString (p.1 + 1) ++ ":\nTitle: "
            ++ jsDisplayO (jsGet p.2 "title") ++ "\nSubreddit: r/"
            ++ jsDisplayO (jsGet p.2 "subreddit") ++ "\nAuthor: u/"
            ++ jsDisplayO (jsGet p.2 "author") ++ "\nUpvotes: "
            ++ jsDisplayO (jsGet p.2 "upvotes") ++ "\nComments: "
            ++ jsDisplayOr (jsGet p.2 "commentCount") "Multiple" ++ "\nURL: "
            ++ jsDisplayO (jsGet p.2 "url") ++ "\n"
            ++ jsSnippetLine "Content snippet: " (jsGet p.2 "content") ++ "\n")
      ++ "\n\nPlease use these Reddit discussions to identify what real people are currently talking about related to this topic.\n"

/-- The YouTube block of the topic prompt
(src/bin/generate-topics.js:323-340). -/
def topicYouTubeBlock (youtubeVideos : List Json) : String :=
  if youtubeVideos.length = 0 then ""
  else
    "\nHere are some recent YouTube videos related to this category:\n\n"
      ++ String.intercalate "\n" (youtubeVideos.enum.map fun p =>
          "\nYouTube Video " ++ toString (p.1 + 1) ++ ":\nTitle: "
            ++ jsDisplayO (jsGet p.2 "title") ++ "\nChannel: "
            ++ jsDisplayO (jsGet p.2 "channelTitle") ++ "\nPublished: "
            ++ jsDisplayOr (jsGet p.2 "publishedAt") "Recently" ++ "\nViews: "
            ++ jsLocaleOr (jsGet p.2 "viewCount") "Multiple" ++ "\nURL: "
            ++ jsDisplayO (jsGet p.2 "url") ++ "\n"
            ++ jsSnippetLine "Description snippet: " (jsGet p.2 "description") ++ "\n")
      ++ "\n\nPlease use these YouTube videos to identify current trends, popular content formats, and discussion topics.\n"

/-- The keywords block of the topic prompt
(src/bin/generate-topics.js:342-356). -/
def topicKeywordsBlock (keywords : KeywordsArg) : String :=
  let keywordsStr :=
    match keywords with
    | .absent => ""
    | .str s => s
    | .arr ks => String.intercalate "," ks
  let truthy :=
    match keywords with
    | .absent => false
    | .str s => s ≠ ""
    | .arr _ => true
  if truthy && (jsTrim keywordsStr != "") then
    "\nKEYWORDS TO INCLUDE:\nTry to incorporate some of these keywords into your topic ideas:\n"
      ++ String.intercalate "\n"
          (((jsSplit keywordsStr ",").map jsTrim).map fun k =>
            "- \x22" ++ k ++ "\x22")
      ++ "\n"
  else ""

/-- Arguments of the topic-prompt assembly (`generateTopicIdeas`,
src/bin/generate-topics.js:280-404).  `today` is the injected current
date (`new Date().toISOString().split("T")[0]` in the source). -/
structure TopicPromptArgs where
  category : String
  audience : String
  count : Int
  today : String
  newsArticles : List Json
  redditPosts : List Json
  youtubeVideos : List Json
  keywords : KeywordsArg

/-- The full topic-generation prompt (src/bin/generate-topics.js:358-404),
assembled purely from its arguments. -/
def buildTopicPrompt (a : TopicPromptArgs) : String :=
  "\nYou are a specialized AI that ONLY outputs valid, parseable JSON.\n\n"
    ++ "Your task is to generate " ++ toString a.count
    ++ " unique and engaging blog topic ideas related to \x22" ++ a.category
    ++ "\x22 for a " ++ a.audience ++ " audience.\n"
    ++ "Your topic ideas MUST be based on the CURRENT and UP-TO-DATE information I\x27ve provided about this subject.\n\n"
    ++ "VERY IMPORTANT: Only include factually accurate and up-to-date information in your topics. For specialized subjects (like sports teams, companies, or technology), make sure any specific entities you mention (e.g., players, products, executives) are actually current and relevant. If you\x27re unsure about specific details, focus on broader concepts instead.\n\n"
    ++ "For each topic idea, include:\n- A catchy, SEO-friendly title\n- A 2-3 sentence summary explaining what the blog post would cover\n- 3-5 key points that would be addressed\n- A suggested primary keyword for SEO\n- Explanation of why this topic is valuable to the target audience\n\n"
    ++ "The output MUST be valid JSON with this exact structure:\n"
    ++ "\x7b\n  \x22category\x22: \x22" ++ a.category ++ "\x22,\n  \x22audience\x22: \x22"
    ++ a.audience ++ "\x22,\n  \x22generatedAt\x22: \x22" ++ a.today
    ++ "\x22,\n  \x22topics\x22: [\n    \x7b\n      \x22title\x22: \x22Example Title\x22,\n      \x22summary\x22: \x22Example summary.\x22,\n      \x22keyPoints\x22: [\x22Point 1\x22, \x22Point 2\x22, \x22Point 3\x22],\n      \x22targetKeyword\x22: \x22keyword\x22,\n      \x22valueProposition\x22: \x22Why it\x27s valuable.\x22\n    \x7d\n  ]\n\x7d\n\n"
    ++ topicNewsBlock a.newsArticles ++ "\n"
    ++ topicRedditBlock a.redditPosts ++ "\n"
    ++ topicYouTubeBlock a.youtubeVideos ++ "\n"
    ++ topicKeywordsBlock a.keywords ++ "\n\n"
    ++ "IMPORTANT:\n1. Make topics CURRENT and UP-TO-DATE - avoid suggesting outdated information\n2. Check the accuracy of specific entities mentioned (people, products, teams, etc.)\n3. Make topics specific, actionable, and based on current trends\n4. Focus on unique angles and innovative approaches\n5. Your response MUST only contain the JSON object - no markdown, no explanations, no extra text\n6. Ensure all JSON keys and string values are properly double-quoted\n7. Do not use single quotes in your JSON\n8. Do not include comments in the JSON\n9. Verify your response is valid JSON before returning it\n"

/-- Embedding of formatForPrompt (src/unnamed/part_001:386-405): render one source
as a numbered citation block, by platform. -/
def formatForPrompt (source : Json) (index : Nat) : String :=
  let n := toString (index + 1)
  let directUrl :=
    jsDisplayO (jsOrO (jsOrO (jsGet source "link") (jsGet source "url")) (some (.str "")))
  let isPlat := fun (p : String) => (jsGet source "platform").elim false (jsonIsStr · p)
  let sourceText :=
    if isPlat "News" then
      "Source " ++ n ++ " (" ++ jsDisplayOr (jsGet source "source") "News article"
        ++ "): " ++ jsDisplayO (jsGet source "title") ++ "\nDirect URL: " ++ directUrl
        ++ "\n" ++ jsDisplayO (jsOrO (jsOrO (jsGet source "content") (jsGet source "text"))
              (jsGet source "description"))
    else if isPlat "YouTube" then
      "Source " ++ n ++ " (YouTube video): " ++ jsDisplayO (jsGet source "title")
        ++ "\nBy " ++ jsDisplayO (jsOrO (jsGet source "author") (jsGet source "channelTitle"))
        ++ "\nDirect URL: " ++ directUrl ++ "\n" ++ jsDisplayO (jsGet source "description")
    else if isPlat "Reddit" then
      "Source " ++ n ++ " (Reddit post): " ++ jsDisplayO (jsGet source "title")
        ++ "\nFrom r/" ++ jsDisplayO (jsGet source "subreddit") ++ " by u/"
        ++ jsDisplayO (jsGet source "author") ++ "\nDirect URL: " ++ directUrl
        ++ "\n" ++ jsDisplayO (jsGet source "content")
    else
      "Source " ++ n ++ ": " ++ jsDisplayO (jsGet source "title") ++ "\nDirect URL: "
        ++ directUrl ++ "\n"
        ++ jsDisplayO (jsOrO (jsOrO (jsGet source "content") (jsGet source "text"))
              (jsGet source "description"))
  "[" ++ n ++ "] " ++ sourceText ++ "\n\n"

/-- The SEO-instructions block of the blog prompt
(src/unnamed/part_001:366-384). -/
def blogSeoBlock (keywords : String) : String :=
  if keywords ≠ "" then
    "\nSEO INSTRUCTIONS:\nTarget the following keywords in your blog post:\n"
      ++ String.intercalate "\n"
          (((jsSplit keywords ",").map jsTrim).map fun k => "- \x22" ++ k ++ "\x22")
      ++ "\n\nSEO guidelines:\n- Include the primary keyword (the first one in the list) in the title, first paragraph, and at least one heading\n- Use secondary keywords (the rest in the list) naturally throughout the content\n- Include keywords in image alt text suggestions if you reference images\n- Ensure keyword density is natural and not forced (around 1-2% of total word count)\n- Use variations and synonyms of the keywords where appropriate\n- Structure content with proper heading hierarchy (H1, H2, H3) that includes keywords\n- DO NOT include a \x22Meta Description\x22 section in the content - the description in the front matter will be used for this purpose\n- DO NOT include a \x22Keywords\x22 section at the end of the content - the tags in the front matter will be used for this purpose\n"
  else ""

/-- Arguments of the blog-prompt assembly (`generateBlogContent`,
src/unnamed/part_001:305-468).  `today` is the injected current date. -/
structure BlogPromptArgs where
  topic : String
  today : String
  keywords : String
  newsArticles : List Json
  redditPosts : List Json
  youtubeVideos : List Json

/-- The full blog-generation prompt (src/unnamed/part_001:418-468): front
matter instructions, Markdown/citation/References instructions, the
numbered source blocks and the SEO block, assembled purely from the
arguments. -/
def buildBlogPrompt (a : BlogPromptArgs) : String :=
  let sources := blogSources a.newsArticles a.redditPosts a.youtubeVideos
  let sourcesText :=
    if sources.length > 0 then
      String.join (sources.enum.map fun p => formatForPrompt p.2 p.1)
    else
      "No sources found. Create content based on general knowledge about the topic.\n\n"
  let tagsList :=
    if a.keywords ≠ "" then
      String.intercalate ", "
        ((jsSplit a.keywords ",").map fun k => "\x22" ++ jsTrim k ++ "\x22")
    else ""
  "\nWrite a comprehensive, engaging, and informative blog post about \x22" ++ a.topic
    ++ "\x22.\n\nIMPORTANT: Start the blog post with YAML front matter at the very beginning of the document. There should be no text before the front matter. The front matter should look like this:\n\n---\ntitle: \x22Your catchy title here\x22\ndate: "
    ++ a.today
    ++ "\ndescription: \x22A brief description of the blog post that includes the primary keyword (this will be used as the meta description)\x22\ntags: ["
    ++ tagsList
    ++ "]\nauthor: \x22AI Content Generator\x22\n---\n\nAfter the front matter, the blog post should:\n- Have a catchy title (H1 heading)\n- Include an introduction that hooks the reader\n- Contain at least 3-5 main sections with appropriate headings\n- Include relevant facts, examples, and insights\n- End with a conclusion and call to action\n- Be written in a conversational yet professional tone\n- Be formatted in Markdown\n\nFormat the blog post with proper Markdown syntax including:\n- # for the main title\n- ## for section headings\n- ### for sub-section headings\n- **bold** for emphasis\n- *italic* for secondary emphasis\n- > for blockquotes\n- - for bullet points\n- 1. for numbered lists\n\nVERY IMPORTANT: You MUST cite sources when using information from them. Use the format [X] where X is the source number. For example, \x22According to a recent study [3]...\x22 or \x22As mentioned in a recent article [5]...\x22. Every major fact or quote should have a citation.\n\nIMPORTANT: At the end of the blog post, after the conclusion, include a \x22## References\x22 section that lists all the sources you cited. Use the EXACT TITLE and DIRECT URL from each source:\n\n## References\n\n[1] \x22EXACT TITLE FROM SOURCE 1\x22. DIRECT_URL_FROM_SOURCE_1\n\n[2] \x22EXACT TITLE FROM SOURCE 2\x22. DIRECT_URL_FROM_SOURCE_2\n\nAdd a blank line between each reference for proper spacing.\n\nThe blog post should be between 800-1200 words (not including references).\n\nHere are your sources:\n\n"
    ++ sourcesText ++ "\n" ++ blogSeoBlock a.keywords ++ "\n"

/-- Externally observable steps of one CLI run, in program order. -/
inductive RunEvent where
  | adapterCall (name : String)
  | generationCall
  | sinkWrite

/-- The `main` flow of src/create-blog.js:611-660: the generation
credential is checked before anything else; only then are the requested
adapters invoked (via `Promise.all`), the generation endpoint called and
the output written.  Returns the event trace and the run outcome. -/
def createBlogMainRun (groqKey : Option String) (bing tavily reddit youtube : Int) :
    List RunEvent × Except String Unit :=
  if ¬ strTruthy groqKey then
    ([], .error "GROQ_API_KEY is not set in .env file")
  else
    ((if bing > 0 ∨ tavily > 0 then [RunEvent.adapterCall "news"] else [])
       ++ (if reddit > 0 then [RunEvent.adapterCall "reddit"] else [])
       ++ (if youtube > 0 then [RunEvent.adapterCall "youtube"] else [])
       ++ [RunEvent.generationCall, RunEvent.sinkWrite],
     .ok ())

/-- The `main` flow of src/generate-topics.js:502-541: the same eager
credential check before the news fetch, generation and write. -/
def generateTopicsMainRun (groqKey : Option String) :
    List RunEvent × Except String Unit :=
  if ¬ strTruthy groqKey then
    ([], .error "GROQ_API_KEY is not set in .env file")
  else
    ([RunEvent.adapterCall "news", RunEvent.generationCall, RunEvent.sinkWrite], .ok ())

/-- The Reddit script wrapper of src/create-blog.js:256-305: a requested
count ≤ 0 returns `[]` without spawning the scraper subprocess; otherwise
the subprocess runs and any failure is caught as `[]`.  The boolean
records whether the subprocess was invoked. -/
def fetchRedditPostsViaScript (count : Int) (script : Except String (List Json)) :
    Bool × List Json :=
  if count ≤ 0 then (false, [])
  else
    (true, match script with
           | .ok posts => posts
           | .error _ => [])

/-- The YouTube script wrapper of src/create-blog.js:313-357 (same
shape). -/
def fetchYouTubeVideosViaScript (count : Int) (script : Except String (List Json)) :
    Bool × List Json :=
  if count ≤ 0 then (false, [])
  else
    (true, match script with
           | .ok videos => videos
           | .error _ => [])

/-- Number of elements in the `data.children` array of a parsed Reddit
search response (0 when the shape does not match); measures what the
service returned. -/
def redditChildrenLenJ (v : Json) : Nat :=
  match jsGetE v "data" with
  | .ok (some d) =>
    match jsGetE d "children" with
    | .ok (some (.arr cs)) => cs.length
    | _ => 0
  | _ => 0

/-- Lift of redditChildrenLenJ to a network outcome. -/
def redditChildrenLen : JsonNet → Nat
  | .response _ (.ok v) => redditChildrenLenJ v
  | _ => 0

/-- Number of elements in the `items` array of a parsed YouTube search
response (0 when the shape does not match). -/
def ytItemsLen (v : Json) : Nat :=
  match jsGetE v "items" with
  | .ok (some (.arr its)) => its.length
  | _ => 0

/-- Lift of ytItemsLen to a network outcome. -/
def ytSearchItemsLen : JsonNet → Nat
  | .response _ (.ok v) => ytItemsLen v
  | _ => 0

/-- Number of elements in the `results` array of a Tavily search
response (0 when the shape does not match). -/
def tavilyResultsLen : TavilyOutcome → Nat
  | .err _ => 0
  | .ok resp =>
    match jsGet resp "results" with
    | some (.arr rs) => rs.length
    | _ => 0

/-! Lemmas about the embedded operations. -/

theorem jLookup_jSet_self (kvs : List (String × Json)) (k : String) (v : Json) :
    jLookup (jSet kvs k v) k = some v := by
  induction kvs with
  | nil => simp [jSet, jLookup]
  | cons a t ih =>
    obtain ⟨a1, a2⟩ := a
    by_cases h : a1 = k <;> simp [jSet, jLookup, h, ih]

theorem jLookup_jSet_other (kvs : List (String × Json)) (k k' : String) (v : Json)
    (h : k ≠ k') : jLookup (jSet kvs k v) k' = jLookup kvs k' := by
  induction kvs with
  | nil => simp [jSet, jLookup, h]
  | cons a t ih =>
    obtain ⟨a1, a2⟩ := a
    by_cases h1 : a1 = k
    · subst h1
      simp [jSet, jLookup, h]
    · by_cases h2 : a1 = k' <;> simp [jSet, jLookup, h1, h2, ih, Ne.symm h]

theorem jsGet_setField_of_ne (v : Json) (k k' : String) (d : Json) (h : k ≠ k') :
    jsGet (setField v k d) k' = jsGet v k' := by
  cases v with
  | obj kvs => simp [setField, jsGet, jLookup_jSet_other kvs k k' d h]
  | null => rfl
  | bool b => rfl
  | num n => rfl
  | str s => rfl
  | arr l => rfl

theorem jsGet_setIfFalsy_of_ne (v : Json) (k k' : String) (d : Json) (h : k ≠ k') :
    jsGet (setIfFalsy v k d) k' = jsGet v k' := by
  cases v with
  | obj kvs =>
    by_cases ht : truthyO (jLookup kvs k)
    · simp [setIfFalsy, ht]
    · simp [setIfFalsy, ht, jsGet, jLookup_jSet_other kvs k k' d h]
  | null => rfl
  | bool b => rfl
  | num n => rfl
  | str s => rfl
  | arr l => rfl

theorem bingLoop_length_le (data : String) :
    ∀ fuel pos rem, (bingLoop data fuel pos rem).length ≤ rem := by
  intro fuel
  induction fuel with
  | zero => intro pos rem; simp [bingLoop]
  | succ f ih =>
    intro pos rem
    cases rem with
    | zero => simp [bingLoop]
    | succ r =>
      simp only [bingLoop]
      cases bingMatchFrom data pos with
      | none => simp
      | some a =>
        simpa using Nat.succ_le_succ (ih a.2 r)

theorem redditFilter_length_le (cs : List Json) (kept : List Json)
    (h : redditFilter cs = .ok kept) : kept.length ≤ cs.length := by
  induction cs generalizing kept with
  | nil =>
    simp only [redditFilter, Except.ok.injEq] at h
    simp [← h]
  | cons c t ih =>
    simp only [redditFilter, bind, Except.bind] at h
    cases hk : redditKeep c with
    | error e => rw [hk] at h; exact absurd h (by simp)
    | ok keep =>
      rw [hk] at h
      cases hr : redditFilter t with
      | error e => rw [hr] at h; exact absurd h (by simp)
      | ok rest =>
        rw [hr] at h
        simp only [pure, Except.pure, Except.ok.injEq] at h
        subst h
        cases keep with
        | true => simpa using ih rest hr
        | false => simpa using Nat.le_succ_of_le (ih rest hr)

theorem redditMapPosts_length (cs : List Json) (ps : List Json)
    (h : redditMapPosts cs = .ok ps) : ps.length = cs.length := by
  induction cs generalizing ps with
  | nil =>
    simp only [redditMapPosts, Except.ok.injEq] at h
    simp [← h]
  | cons c t ih =>
    simp only [redditMapPosts, bind, Except.bind] at h
    cases hp : redditPostOf c with
    | error e => rw [hp] at h; exact absurd h (by simp)
    | ok p =>
      rw [hp] at h
      cases hr : redditMapPosts t with
      | error e => rw [hr] at h; exact absurd h (by simp)
      | ok rest =>
        rw [hr] at h
        simp only [pure, Except.pure, Except.ok.injEq] at h
        subst h
        simpa using ih rest hr

theorem redditHandle_length (v : Json) (posts : List Json)
    (h : redditHandle v = .ok posts) : posts.length ≤ redditChildrenLenJ v := by
  simp only [redditHandle, bind, Except.bind] at h
  cases hd : jsGetE v "data" with
  | error e => rw [hd] at h; exact absurd h (by simp)
  | ok d =>
    rw [hd] at h
    dsimp only at h
    by_cases ht : truthyO d = true
    · rw [if_neg (by simp [ht])] at h
      cases d with
      | none => simp [truthyO] at ht
      | some w =>
        simp only [jsGetO] at h
        cases hc : jsGetE w "children" with
        | error e => rw [hc] at h; exact absurd h (by simp)
        | ok ch =>
          rw [hc] at h
          dsimp only at h
          by_cases htc : truthyO ch = true
          · rw [if_neg (by simp [htc])] at h
            match ch, htc with
            | some (.arr children), _ =>
              dsimp only at h
              cases hk : redditFilter children with
              | error e => rw [hk] at h; exact absurd h (by simp)
              | ok kept =>
                rw [hk] at h
                dsimp only at h
                have hlen := redditMapPosts_length kept posts h
                have hkle := redditFilter_length_le children kept hk
                simp only [redditChildrenLenJ, hd, hc]
                omega
            | some .null, htc => simp [truthyO, jsonTruthy] at htc
            | some (.bool b), htc => exact absurd h (by simp)
            | some (.num n), htc => exact absurd h (by simp)
            | some (.str s), htc => exact absurd h (by simp)
            | some (.obj kvs), htc => exact absurd h (by simp)
            | none, htc => simp [truthyO] at htc
          · rw [if_pos htc] at h
            simp only [pure, Except.pure, Except.ok.injEq] at h
            simp [← h]
    · rw [if_pos ht] at h
      simp only [pure, Except.pure, Except.ok.injEq] at h
      simp [← h]

theorem ytFilter_length_le (its : List Json) (kept : List Json)
    (h : ytFilterVideos its = .ok kept) : kept.length ≤ its.length := by
  induction its generalizing kept with
  | nil =>
    simp only [ytFilterVideos, Except.ok.injEq] at h
    simp [← h]
  | cons c t ih =>
    simp only [ytFilterVideos, bind, Except.bind] at h
    cases hk : ytKeep c with
    | error e => rw [hk] at h; exact absurd h (by simp)
    | ok keep =>
      rw [hk] at h
      cases hr : ytFilterVideos t with
      | error e => rw [hr] at h; exact absurd h (by simp)
      | ok rest =>
        rw [hr] at h
        simp only [pure, Except.pure, Except.ok.injEq] at h
        subst h
        cases keep with
        | true => simpa using ih rest hr
        | false => simpa using Nat.le_succ_of_le (ih rest hr)

theorem ytMapVideos_length (pairs : List (Option Json × Option Json))
    (cs : List Json) (vs : List Json) (h : ytMapVideos pairs cs = .ok vs) :
    vs.length = cs.length := by
  induction cs generalizing vs with
  | nil =>
    simp only [ytMapVideos, Except.ok.injEq] at h
    simp [← h]
  | cons c t ih =>
    simp only [ytMapVideos, bind, Except.bind] at h
    cases hp : ytVideoObj pairs c with
    | error e => rw [hp] at h; exact absurd h (by simp)
    | ok p =>
      rw [hp] at h
      cases hr : ytMapVideos pairs t with
      | error e => rw [hr] at h; exact absurd h (by simp)
      | ok rest =>
        rw [hr] at h
        simp only [pure, Except.pure, Except.ok.injEq] at h
        subst h
        simpa using ih rest hr

theorem ytAfterSearch_kept_le (v : Json) (kept : List Json) (ids : String)
    (h : ytAfterSearch v = .ok (some (kept, ids))) : kept.length ≤ ytItemsLen v := by
  simp only [ytAfterSearch, bind, Except.bind] at h
  cases hi : jsGetE v "items" with
  | error e => rw [hi] at h; exact absurd h (by simp)
  | ok itemsO =>
    rw [hi] at h
    dsimp only at h
    by_cases ht : truthyO itemsO = true
    · rw [if_neg (by simp [ht])] at h
      match itemsO, ht with
      | some (.arr items), _ =>
        dsimp only at h
        by_cases hz : items.length = 0
        · rw [if_pos hz] at h
          exact absurd h (by simp [pure, Except.pure])
        · rw [if_neg hz] at h
          cases hk : ytFilterVideos items with
          | error e => rw [hk] at h; exact absurd h (by simp)
          | ok kept' =>
            rw [hk] at h
            dsimp only at h
            by_cases hj : String.intercalate "," (kept'.map ytVideoIdStr) = ""
            · rw [if_pos hj] at h
              exact absurd h (by simp [pure, Except.pure])
            · rw [if_neg hj] at h
              simp only [pure, Except.pure, Except.ok.injEq, Option.some.injEq,
                Prod.mk.injEq] at h
              obtain ⟨hkept, _⟩ := h
              subst hkept
              simpa [ytItemsLen, hi] using ytFilter_length_le items kept' hk
      | some .null, ht => simp [truthyO, jsonTruthy] at ht
      | some (.bool b), ht => exact absurd h (by simp)
      | some (.num n), ht => exact absurd h (by simp)
      | some (.str s), ht => exact absurd h (by simp)
      | some (.obj kvs), ht => exact absurd h (by simp)
      | none, ht => simp [truthyO] at ht
    · rw [if_pos ht] at h
      exact absurd h (by simp [pure, Except.pure])

theorem ytVideos_length (kept : List Json) (sv : Json) (vs : List Json)
    (h : ytVideos kept sv = .ok vs) : vs.length = kept.length := by
  simp only [ytVideos, bind, Except.bind] at h
  cases hi : jsGetE sv "items" with
  | error e => rw [hi] at h; exact absurd h (by simp)
  | ok itemsO =>
    rw [hi] at h
    dsimp only at h
    match itemsO with
    | some (.arr sitems) =>
      dsimp only at h
      cases hp : ytStatsPairs sitems with
      | error e => rw [hp] at h; exact absurd h (by simp)
      | ok pairs =>
        rw [hp] at h
        dsimp only at h
        exact ytMapVideos_length pairs kept vs h
    | some .null => exact absurd h (by simp)
    | some (.bool b) => exact absurd h (by simp)
    | some (.num n) => exact absurd h (by simp)
    | some (.str s) => exact absurd h (by simp)
    | some (.obj kvs) => exact absurd h (by simp)
    | none => exact absurd h (by simp)

/-! Claim theorems. -/

/-- C6 (counterexample): the claim asserts `body` is never empty, but
`parseStructuredContent` applied to the raw text `"BODY:"` (the BODY
marker with a blank section) produces an empty `body`. -/
theorem blog_body_empty_counterexample :
    (parseStructuredContent "BODY:").body = "" := by
  rfl

/-- C6 (amended): field extraction yields the empty string for a TITLE,
META_DESCRIPTION or SUMMARY whose marker is missing (the empty list for
TAGS); a present non-empty TAGS capture is split on commas into trimmed
tags; and `body` falls back to the entire raw text when the BODY marker
is missing — but `body` can still be empty, namely when the raw text is
empty or the BODY section is blank. -/
theorem blog_field_extraction :
    (∀ c : String, strFind c "TITLE:" 0 = none → (parseStructuredContent c).title = "")
    ∧ (∀ c : String, strFind c "META_DESCRIPTION:" 0 = none →
        (parseStructuredContent c).metaDescription = "")
    ∧ (∀ c : String, strFind c "SUMMARY:" 0 = none → (parseStructuredContent c).summary = "")
    ∧ (∀ c : String, strFind c "TAGS:" 0 = none → (parseStructuredContent c).tags = [])
    ∧ (∀ c : String, strFind c "BODY:" 0 = none → (parseStructuredContent c).body = c)
    ∧ (∀ c cap : String, sectionCapture c "TAGS:" "BODY:" = some cap → cap ≠ "" →
        (parseStructuredContent c).tags = (jsSplit (jsTrim cap) ",").map jsTrim) := by
  refine ⟨?_, ?_, ?_, ?_, ?_, ?_⟩
  · intro c h
    simp [parseStructuredContent, sectionCapture, h]
  · intro c h
    simp [parseStructuredContent, sectionCapture, h]
  · intro c h
    simp [parseStructuredContent, sectionCapture, h]
  · intro c h
    simp [parseStructuredContent, sectionCapture, h]
  · intro c h
    simp [parseStructuredContent, bodyCapture, h]
  · intro c cap h hne
    simp [parseStructuredContent, h, hne]

/-- C6 witness: the amended theorem evaluated at concrete raw texts. -/
theorem blog_field_extraction_witness :
    (parseStructuredContent "hello").title = ""
      ∧ (parseStructuredContent "TAGS: a,b").tags
          = ((jsSplit (jsTrim " a,b") ",").map jsTrim) := by
  constructor
  · exact blog_field_extraction.1 "hello" (by rfl)
  · exact blog_field_extraction.2.2.2.2.2 "TAGS: a,b" " a,b" (by rfl) (by decide)

/-- C5: with both news platforms requested (and the Tavily client
configured), the merged research list is exactly the items of the Bing adapter
followed by the items of the Tavily adapter, and the combined blog source list
places every news item (at its adapter-return position) before every
Reddit item, which precede every YouTube item — aggregation is
order-stable with no re-sorting. -/
theorem aggregation_order_stable (topic now : String) (bc tc : Int)
    (bnet : HttpOutcome) (tout : TavilyOutcome) (n r y : List Json)
    (hb : 0 < bc) (ht : 0 < tc) :
    fetchNewsArticles topic bc tc bnet (some ()) tout now
        = (fetchBingNewsArticles topic bc bnet).2
          ++ (fetchTavilyNewsArticles topic tc (some ()) tout now).2
      ∧ blogSources n r y = n ++ r ++ y
      ∧ (∀ i, i < n.length → (blogSources n r y)[i]? = n[i]?)
      ∧ (∀ j, j < r.length → (blogSources n r y)[n.length + j]? = r[j]?) := by
  refine ⟨?_, rfl, ?_, ?_⟩
  · simp [fetchNewsArticles, hb, ht]
  · intro i hi
    simp only [blogSources]
    rw [List.append_assoc]
    exact List.getElem?_append_left hi
  · intro j hj
    simp only [blogSources]
    rw [List.append_assoc, List.getElem?_append_right (Nat.le_add_right _ _)]
    rw [Nat.add_sub_cancel_left]
    exact List.getElem?_append_left hj

/-- C5 witness: the aggregation-order theorem at concrete inputs. -/
theorem aggregation_order_stable_witness :
    fetchNewsArticles "ai" 2 2 (.transportError "x") (some ()) (.err "y") "2025-01-01"
        = (fetchBingNewsArticles "ai" 2 (.transportError "x")).2
          ++ (fetchTavilyNewsArticles "ai" 2 (some ()) (.err "y") "2025-01-01").2
      ∧ blogSources [.str "n"] [.str "r"] [.str "y"]
          = [.str "n"] ++ [.str "r"] ++ [.str "y"]
      ∧ (∀ i, i < [Json.str "n"].length →
          (blogSources [.str "n"] [.str "r"] [.str "y"])[i]? = [Json.str "n"][i]?)
      ∧ (∀ j, j < [Json.str "r"].length →
          (blogSources [.str "n"] [.str "r"] [.str "y"])[[Json.str "n"].length + j]?
            = [Json.str "r"][j]?) :=
  aggregation_order_stable "ai" "2025-01-01" 2 2 (.transportError "x") (.err "y")
    [.str "n"] [.str "r"] [.str "y"] (by decide) (by decide)

/-- C7: prompt composition is deterministic — two invocations of the
topic-prompt assembly (and of the blog-prompt assembly) on equal
argument records, the injected current date included, produce identical
request text.  Both builders are pure functions of their arguments. -/
theorem prompt_composition_deterministic (a b : TopicPromptArgs)
    (c d : BlogPromptArgs) (hab : a = b) (hcd : c = d) :
    buildTopicPrompt a = buildTopicPrompt b ∧ buildBlogPrompt c = buildBlogPrompt d := by
  subst hab
  subst hcd
  exact ⟨rfl, rfl⟩

/-- C7 witness: determinism at concrete arguments. -/
theorem prompt_composition_deterministic_witness :
    buildTopicPrompt ⟨"tech", "general", 5, "2025-01-01", [], [], [], .absent⟩
        = buildTopicPrompt ⟨"tech", "general", 5, "2025-01-01", [], [], [], .absent⟩
      ∧ buildBlogPrompt ⟨"t", "2025-01-01", "", [], [], []⟩
          = buildBlogPrompt ⟨"t", "2025-01-01", "", [], [], []⟩ :=
  prompt_composition_deterministic _ _ _ _ rfl rfl

/-- C8: when the Groq credential is absent (or blank), both entry-point
runs fail immediately with the precondition error and their event traces
are empty — no source adapter is invoked before the check. -/
theorem missing_credential_fails_fast (groqKey : Option String)
    (bing tavily reddit youtube : Int) (h : strTruthy groqKey = false) :
    (createBlogMainRun groqKey bing tavily reddit youtube).1 = []
      ∧ (createBlogMainRun groqKey bing tavily reddit youtube).2
          = .error "GROQ_API_KEY is not set in .env file"
      ∧ (generateTopicsMainRun groqKey).1 = []
      ∧ (generateTopicsMainRun groqKey).2
          = .error "GROQ_API_KEY is not set in .env file" := by
  simp [createBlogMainRun, generateTopicsMainRun, h]

/-- C8 witness: the fail-fast theorem with the credential absent. -/
theorem missing_credential_fails_fast_witness :
    (createBlogMainRun none 5 5 5 5).1 = []
      ∧ (createBlogMainRun none 5 5 5 5).2
          = .error "GROQ_API_KEY is not set in .env file"
      ∧ (generateTopicsMainRun none).1 = []
      ∧ (generateTopicsMainRun none).2
          = .error "GROQ_API_KEY is not set in .env file" :=
  missing_credential_fails_fast none 5 5 5 5 (by rfl)

/-- C3: when the direct parse fails and the single repaired re-parse also
fails, the topic parser returns (without raising — the embedding is a
total function) the degraded result: `topics` is the empty array,
`rawContent` is exactly the input text, and `error` is a non-empty string
carrying the parse failure message. -/
theorem topic_parse_degraded (inp : TopicParseInput) (e1 e2 : String)
    (h1 : inp.direct = .error e1) (h2 : inp.repaired = .error e2) :
    generateTopicIdeasResult inp = topicFallback inp e1
      ∧ jsGet (generateTopicIdeasResult inp) "topics" = some (.arr [])
      ∧ jsGet (generateTopicIdeasResult inp) "rawContent" = some (.str inp.content)
      ∧ ∃ s, jsGet (generateTopicIdeasResult inp) "error" = some (.str s) ∧ s ≠ "" := by
  have hres : generateTopicIdeasResult inp = topicFallback inp e1 := by
    simp [generateTopicIdeasResult, h1, h2]
  refine ⟨hres, ?_, ?_, ?_⟩
  · rw [hres]; rfl
  · rw [hres]; rfl
  · refine ⟨"Failed to parse JSON: " ++ e1, by rw [hres]; rfl, ?_⟩
    intro hEq
    have hlen := congrArg String.length hEq
    rw [String.length_append] at hlen
    have h22 : ("Failed to parse JSON: ").length = 22 := by rfl
    rw [h22] at hlen
    have h0 : ("" : String).length = 0 := by rfl
    rw [h0] at hlen
    omega

/-- C3 witness: the degraded-result theorem at a concrete unparseable
response. -/
theorem topic_parse_degraded_witness :
    jsGet (generateTopicIdeasResult
        ⟨"not json", .error "Unexpected token", .error "Unexpected token",
         "tech", "general", "2025-01-01", .obj []⟩) "topics" = some (.arr [])
      ∧ jsGet (generateTopicIdeasResult
          ⟨"not json", .error "Unexpected token", .error "Unexpected token",
           "tech", "general", "2025-01-01", .obj []⟩) "rawContent"
          = some (.str "not json") :=
  have h := topic_parse_degraded
    ⟨"not json", .error "Unexpected token", .error "Unexpected token",
     "tech", "general", "2025-01-01", .obj []⟩
    "Unexpected token" "Unexpected token" rfl rfl
  ⟨h.2.1, h.2.2.1⟩

/-- C10 (counterexample): the claim asserts the `topics` field of the
returned JSON is always an array, but a model response parsing to
`\x7b"topics": 7\x7d` is returned with its truthy non-array `topics`
preserved. -/
theorem topics_not_array_counterexample :
    ¬ ∃ l, jsGet (generateTopicIdeasResult
        ⟨"\x7b\x22topics\x22: 7\x7d", .ok (.obj [("topics", .num 7)]),
         .ok (.obj [("topics", .num 7)]), "tech", "general", "2025-01-01",
         .obj []⟩) "topics" = some (.arr l) := by
  rintro ⟨l, h⟩
  have h7 : jsGet (generateTopicIdeasResult
      ⟨"\x7b\x22topics\x22: 7\x7d", .ok (.obj [("topics", .num 7)]),
       .ok (.obj [("topics", .num 7)]), "tech", "general", "2025-01-01",
       .obj []⟩) "topics" = some (.num 7) := by rfl
  rw [h7] at h
  injection h with h'
  exact Json.noConfusion h'

theorem topicNormalize_non_obj (inp : TopicParseInput) (v : Json)
    (h : jsonIsObj v = false) : topicNormalize inp v = v := by
  cases v with
  | obj kvs => simp [jsonIsObj] at h
  | null => rfl
  | bool b => rfl
  | num n => rfl
  | str s => rfl
  | arr l => rfl

theorem jsGet_non_obj (v : Json) (h : jsonIsObj v = false) (k : String) :
    jsGet v k = none := by
  cases v with
  | obj kvs => simp [jsonIsObj] at h
  | null => rfl
  | bool b => rfl
  | num n => rfl
  | str s => rfl
  | arr l => rfl

/-- C10 (amended): the returned value is always well-formed JSON (it
inhabits the `Json` type, so re-parsing the stringified result cannot
fail).  Whenever the model response parses to a JSON object — on the
direct parse, or on the repaired re-parse after the direct parse failed —
the `topics` field of the result is always present: backfilled with the
empty array when missing or falsy, but preserved as-is when truthy even
if it is not an array.  The fallback result of a doubly-failed parse
(each attempt failing either because `JSON.parse` threw or because it
returned `null`) always carries `topics = []`.  A response parsing (on
either attempt) to a non-null non-object value is returned without a
`topics` field. -/
theorem topics_field_presence (inp : TopicParseInput) :
    (∀ kvs, inp.direct = .ok (.obj kvs) →
      ∃ t, jsGet (generateTopicIdeasResult inp) "topics" = some t)
    ∧ (∀ kvs, inp.direct = .ok (.obj kvs) → truthyO (jLookup kvs "topics") = false →
      jsGet (generateTopicIdeasResult inp) "topics" = some (.arr []))
    ∧ (∀ kvs, directParseFails inp → inp.repaired = .ok (.obj kvs) →
      ∃ t, jsGet (generateTopicIdeasResult inp) "topics" = some t)
    ∧ (∀ kvs, directParseFails inp → inp.repaired = .ok (.obj kvs) →
      truthyO (jLookup kvs "topics") = false →
      jsGet (generateTopicIdeasResult inp) "topics" = some (.arr []))
    ∧ (directParseFails inp → repairedParseFails inp →
      jsGet (generateTopicIdeasResult inp) "topics" = some (.arr []))
    ∧ (∀ v, inp.direct = .ok v → jsonIsNull v = false → jsonIsObj v = false →
      jsGet (generateTopicIdeasResult inp) "topics" = none)
    ∧ (∀ v, directParseFails inp → inp.repaired = .ok v → jsonIsNull v = false →
      jsonIsObj v = false →
      jsGet (generateTopicIdeasResult inp) "topics" = none) := by
  have chain : ∀ v : Json, jsGet (topicNormalize inp v) "topics"
      = jsGet (setIfFalsy v "topics" (.arr [])) "topics" := by
    intro v
    unfold topicNormalize
    rw [jsGet_setField_of_ne _ _ _ _ (by decide),
      jsGet_setIfFalsy_of_ne _ _ _ _ (by decide),
      jsGet_setIfFalsy_of_ne _ _ _ _ (by decide),
      jsGet_setIfFalsy_of_ne _ _ _ _ (by decide)]
  have hExists : ∀ kvs, generateTopicIdeasResult inp = topicNormalize inp (Json.obj kvs) →
      ∃ t, jsGet (generateTopicIdeasResult inp) "topics" = some t := by
    intro kvs hres
    rw [hres, chain]
    by_cases ht : truthyO (jLookup kvs "topics") = true
    · cases hL : jLookup kvs "topics" with
      | none => rw [hL] at ht; simp [truthyO] at ht
      | some t =>
        refine ⟨t, ?_⟩
        have ht' : truthyO (some t) = true := hL ▸ ht
        simp [setIfFalsy, ht', jsGet, hL]
    · refine ⟨.arr [], ?_⟩
      simp only [setIfFalsy, eq_self_iff_true]
      rw [if_neg ht]
      simp [jsGet, jLookup_jSet_self]
  have hFalsy : ∀ kvs, generateTopicIdeasResult inp = topicNormalize inp (Json.obj kvs) →
      truthyO (jLookup kvs "topics") = false →
      jsGet (generateTopicIdeasResult inp) "topics" = some (.arr []) := by
    intro kvs hres ht
    rw [hres, chain]
    simp only [setIfFalsy]
    rw [if_neg (by simp [ht])]
    simp [jsGet, jLookup_jSet_self]
  have hNone : ∀ v, jsonIsObj v = false →
      generateTopicIdeasResult inp = topicNormalize inp v →
      jsGet (generateTopicIdeasResult inp) "topics" = none := by
    intro v hobj hres
    rw [hres, topicNormalize_non_obj inp v hobj]
    exact jsGet_non_obj v hobj "topics"
  have hRepRoute : ∀ v, directParseFails inp → inp.repaired = .ok v →
      jsonIsNull v = false →
      generateTopicIdeasResult inp = topicNormalize inp v := by
    intro v hdf hr hv
    rcases hdf with hnull | ⟨e1, herr⟩
    · simp [generateTopicIdeasResult, hnull, hr, hv,
        show jsonIsNull Json.null = true from rfl]
    · simp [generateTopicIdeasResult, herr, hr, hv]
  refine ⟨?_, ?_, ?_, ?_, ?_, ?_, ?_⟩
  · intro kvs h
    exact hExists kvs (by simp [generateTopicIdeasResult, h, jsonIsNull])
  · intro kvs h ht
    exact hFalsy kvs (by simp [generateTopicIdeasResult, h, jsonIsNull]) ht
  · intro kvs hdf hr
    exact hExists kvs (hRepRoute (.obj kvs) hdf hr (by rfl))
  · intro kvs hdf hr ht
    exact hFalsy kvs (hRepRoute (.obj kvs) hdf hr (by rfl)) ht
  · intro hdf hrf
    have hres : ∃ e, generateTopicIdeasResult inp = topicFallback inp e := by
      rcases hdf with hnull | ⟨e1, herr⟩ <;> rcases hrf with hrnull | ⟨e2, hrerr⟩
      · exact ⟨nullTopicsMsg, by
          simp [generateTopicIdeasResult, hnull, hrnull, jsonIsNull]⟩
      · exact ⟨nullTopicsMsg, by
          simp [generateTopicIdeasResult, hnull, hrerr, jsonIsNull]⟩
      · exact ⟨e1, by simp [generateTopicIdeasResult, herr, hrnull, jsonIsNull]⟩
      · exact ⟨e1, by simp [generateTopicIdeasResult, herr, hrerr]⟩
    obtain ⟨e, hres⟩ := hres
    rw [hres]
    rfl
  · intro v h hv hobj
    exact hNone v hobj (by simp [generateTopicIdeasResult, h, hv])
  · intro v hdf hr hv hobj
    exact hNone v hobj (hRepRoute v hdf hr hv)

/-- C10 witness: the amended theorem at concrete parse outcomes — a
direct-parse object without topics, a repaired-parse object without
topics after a failed direct parse, and a direct parse yielding a
non-object number. -/
theorem topics_field_presence_witness :
    jsGet (generateTopicIdeasResult
        ⟨"\x7b\x7d", .ok (.obj []), .ok (.obj []), "c", "a", "d", .obj []⟩)
      "topics" = some (.arr [])
    ∧ jsGet (generateTopicIdeasResult
        ⟨"x", .error "Unexpected token", .ok (.obj []), "c", "a", "d", .obj []⟩)
      "topics" = some (.arr [])
    ∧ jsGet (generateTopicIdeasResult
        ⟨"5", .ok (.num 5), .ok (.num 5), "c", "a", "d", .obj []⟩)
      "topics" = none :=
  ⟨(topics_field_presence
      ⟨"\x7b\x7d", .ok (.obj []), .ok (.obj []), "c", "a", "d", .obj []⟩).2.1
      [] rfl (by rfl),
   (topics_field_presence
      ⟨"x", .error "Unexpected token", .ok (.obj []), "c", "a", "d", .obj []⟩).2.2.2.1
      [] (Or.inr ⟨"Unexpected token", rfl⟩) rfl (by rfl),
   (topics_field_presence
      ⟨"5", .ok (.num 5), .ok (.num 5), "c", "a", "d", .obj []⟩).2.2.2.2.2.1
      (.num 5) rfl (by rfl) (by rfl)⟩

/-- C9 (counterexample): the claim asserts every adapter issues no network
call for a requested count of 0, but the Reddit adapter clamps the count
into `[1, 25]` and issues its search request with `limit=1`. -/
theorem zero_count_network_call_counterexample :
    (fetchRedditPosts ⟨"q", 0, none, "relevance", "week"⟩ (.transportError "refused")).1
      = ["https://www.reddit.com/search.json?q=q&sort=relevance&t=week&limit=1"] := by
  rfl

/-- C9 (amended): the Bing and Tavily adapters (and the create-blog script
wrappers) return an empty sequence without issuing any call when the
requested count is ≤ 0; the standalone Reddit scraper always issues
exactly one search request (clamping the count up to 1), and the YouTube
scraper issues its search request whenever its API key is configured,
regardless of the requested count. -/
theorem zero_count_skip (topic now : String) (count : Int) (net : HttpOutcome)
    (client : Option Unit) (out : TavilyOutcome)
    (script : Except String (List Json)) (o : RedditOptions) (oy : YouTubeOptions)
    (jnet stnet : JsonNet) (key : Option String)
    (hc : count ≤ 0) (hk : strTruthy key = true) :
    fetchBingNewsArticles topic count net = ([], [])
      ∧ fetchTavilyNewsArticles topic count client out now = ([], [])
      ∧ fetchRedditPostsViaScript count script = (false, [])
      ∧ fetchYouTubeVideosViaScript count script = (false, [])
      ∧ (fetchRedditPosts o jnet).1 = [redditSearchUrl o (min (max 1 o.maxCount) 25)]
      ∧ (fetchYouTubeVideos oy key jnet stnet).1 ≠ [] := by
  refine ⟨?_, ?_, ?_, ?_, rfl, ?_⟩
  · simp [fetchBingNewsArticles, hc]
  · simp [fetchTavilyNewsArticles, hc]
  · simp [fetchRedditPostsViaScript, hc]
  · simp [fetchYouTubeVideosViaScript, hc]
  · rw [fetchYouTubeVideos]
    rw [if_neg (by simp [hk])]
    cases jnet with
    | transportError m => simp
    | response st body =>
      dsimp only
      by_cases hst : st ≠ 200
      · rw [if_pos hst]
        simp
      · rw [if_neg hst]
        cases body with
        | error e => simp
        | ok v =>
          dsimp only
          cases hA : ytAfterSearch v with
          | error e => simp
          | ok oo =>
            cases oo with
            | none => simp
            | some kp =>
              obtain ⟨kept, ids⟩ := kp
              cases stnet with
              | transportError m => simp
              | response sst sbody =>
                cases sbody with
                | error e => simp
                | ok sv =>
                  dsimp only
                  cases ytVideos kept sv <;> simp

/-- C9 witness: the zero-count theorem at concrete inputs. -/
theorem zero_count_skip_witness :
    fetchBingNewsArticles "ai" 0 (.transportError "x") = ([], [])
      ∧ fetchTavilyNewsArticles "ai" 0 none (.err "x") "d" = ([], [])
      ∧ fetchRedditPostsViaScript 0 (.error "e") = (false, [])
      ∧ fetchYouTubeVideosViaScript 0 (.error "e") = (false, [])
      ∧ (fetchRedditPosts ⟨"q", 5, none, "hot", "day"⟩ (.transportError "x")).1
          = [redditSearchUrl ⟨"q", 5, none, "hot", "day"⟩ (min (max 1 5) 25)]
      ∧ (fetchYouTubeVideos ⟨"q", 5, "relevance", "video"⟩ (some "K")
          (.transportError "x") (.transportError "x")).1 ≠ [] :=
  zero_count_skip "ai" "d" 0 (.transportError "x") none (.err "x") (.error "e")
    ⟨"q", 5, none, "hot", "day"⟩ ⟨"q", 5, "relevance", "video"⟩
    (.transportError "x") (.transportError "x") (some "K") (by decide) (by rfl)

/-- C4 (counterexample): the claim bounds every adapter's item count by
`min(requested, ceiling)`, but the Reddit adapter with a requested count
of 0 (bound `min(0, 25) = 0`) clamps the limit up to 1 and returns the
post the service sends back. -/
theorem count_cap_counterexample :
    ((fetchRedditPosts ⟨"q", 0, none, "relevance", "week"⟩
        (.response 200 (.ok (.obj [("data", .obj [("children", .arr
          [.obj [("kind", .str "t3"),
                 ("data", .obj [("created_utc", .num 5)])]])])])))).2).length = 1 := by
  rfl

/-- C4 (amended): the Bing adapter enforces `min(requested, 5)` client-side
against any response; the Tavily, Reddit and YouTube adapters transmit a
clamped limit (`min(requested,5)`, `clamp(requested,1,25)`,
`clamp(requested,1,50)` respectively) and return at most as many items as
the service sends, so their counts respect the clamp exactly when the
service honours the transmitted limit — and the Reddit/YouTube clamp has
a lower bound of 1, so a requested count of 0 can still yield one item. -/
theorem adapter_count_caps (topic now : String) (count : Int) (net : HttpOutcome)
    (client : Option Unit) (out : TavilyOutcome) (n : Nat)
    (o : RedditOptions) (rnet : JsonNet) (oy : YouTubeOptions) (key : Option String)
    (snet stnet : JsonNet)
    (htav : tavilyResultsLen out ≤ n)
    (hred : redditChildrenLen rnet ≤ (min (max 1 o.maxCount) 25).toNat)
    (hyt : ytSearchItemsLen snet ≤ (min (max 1 oy.maxCount) 50).toNat) :
    (((fetchBingNewsArticles topic count net).2.length : Int) ≤ max (min count 5) 0)
      ∧ (fetchTavilyNewsArticles topic count client out now).2.length ≤ n
      ∧ (fetchRedditPosts o rnet).2.length ≤ (min (max 1 o.maxCount) 25).toNat
      ∧ (fetchYouTubeVideos oy key snet stnet).2.length
          ≤ (min (max 1 oy.maxCount) 50).toNat := by
  refine ⟨?_, ?_, ?_, ?_⟩
  · by_cases hc : count ≤ 0
    · simp [fetchBingNewsArticles, hc]
    · rw [fetchBingNewsArticles, if_neg hc]
      have hmin : (0 : Int) ≤ min count 5 := le_min (by omega) (by norm_num)
      cases net with
      | transportError m =>
        simp only [List.length_nil, Int.natCast_zero]
        exact le_max_right _ _
      | response st body =>
        dsimp only
        have hb := bingLoop_length_le body (body.toList.length + 1) 0 (min count 5).toNat
        have hcast : ((bingExtract body (min count 5).toNat).length : Int)
            ≤ ((min count 5).toNat : Int) := by exact_mod_cast hb
        rw [Int.toNat_of_nonneg hmin] at hcast
        exact le_trans hcast (le_max_left _ _)
  · rw [fetchTavilyNewsArticles]
    by_cases hg : count ≤ 0 ∨ client.isNone
    · rw [if_pos hg]; simp
    · rw [if_neg hg]
      cases out with
      | err m => simp
      | ok resp =>
        dsimp only
        by_cases ht : jsonTruthy resp = true
        · rw [if_pos ht]
          cases hJ : jsGet resp "results" with
          | none => simp
          | some rv =>
            cases rv with
            | arr rs =>
              dsimp only
              by_cases hz : rs.length > 0
              · rw [if_pos hz]
                simpa using by simpa [tavilyResultsLen, hJ] using htav
              · rw [if_neg hz]; simp
            | null => simp
            | bool b => simp
            | num m => simp
            | str s => simp
            | obj kvs => simp
        · rw [if_neg ht]; simp
  · unfold fetchRedditPosts
    cases rnet with
    | transportError m => simp
    | response st body =>
      dsimp only
      by_cases h3 : 300 ≤ st ∧ st < 400
      · rw [if_pos h3]; simp
      · rw [if_neg h3]
        by_cases hst : st ≠ 200
        · rw [if_pos hst]; simp
        · rw [if_neg hst]
          cases body with
          | error e => simp
          | ok v =>
            dsimp only
            cases hH : redditHandle v with
            | error e => simp
            | ok posts =>
              dsimp only
              have hle := redditHandle_length v posts hH
              have hlen : redditChildrenLen (JsonNet.response st (.ok v))
                  = redditChildrenLenJ v := rfl
              rw [hlen] at hred
              simpa using le_trans hle hred
  · rw [fetchYouTubeVideos]
    by_cases hk : strTruthy key = true
    · rw [if_neg (by simp [hk])]
      cases snet with
      | transportError m => simp
      | response st body =>
        dsimp only
        by_cases hst : st ≠ 200
        · rw [if_pos hst]; simp
        · rw [if_neg hst]
          cases body with
          | error e => simp
          | ok v =>
            dsimp only
            cases hA : ytAfterSearch v with
            | error e => simp
            | ok oo =>
              cases oo with
              | none => simp
              | some kp =>
                obtain ⟨kept, ids⟩ := kp
                have hkle := ytAfterSearch_kept_le v kept ids hA
                have hslen : ytSearchItemsLen (JsonNet.response st (.ok v))
                    = ytItemsLen v := rfl
                rw [hslen] at hyt
                cases stnet with
                | transportError m => simp
                | response sst sbody =>
                  cases sbody with
                  | error e => simp
                  | ok sv =>
                    dsimp only
                    cases hV : ytVideos kept sv with
                    | error e => simp
                    | ok videos =>
                      dsimp only
                      have hveq := ytVideos_length kept sv videos hV
                      simp only [hveq]
                      exact le_trans hkle hyt
    · rw [if_pos (by simp [hk])]
      simp

/-- C4 witness: the amended count-cap theorem at concrete inputs. -/
theorem adapter_count_caps_witness :
    (((fetchBingNewsArticles "ai" 3 (.transportError "x")).2.length : Int)
        ≤ max (min 3 5) 0)
      ∧ (fetchTavilyNewsArticles "ai" 3 (some ()) (.err "x") "d").2.length ≤ 3
      ∧ (fetchRedditPosts ⟨"q", 5, none, "hot", "day"⟩ (.transportError "x")).2.length
          ≤ (min (max 1 (5 : Int)) 25).toNat
      ∧ (fetchYouTubeVideos ⟨"q", 5, "relevance", "video"⟩ (some "K")
          (.transportError "x") (.transportError "x")).2.length
          ≤ (min (max 1 (5 : Int)) 50).toNat :=
  adapter_count_caps "ai" "d" 3 (.transportError "x") (some ()) (.err "x") 3
    ⟨"q", 5, none, "hot", "day"⟩ (.transportError "x")
    ⟨"q", 5, "relevance", "video"⟩ (some "K") (.transportError "x")
    (.transportError "x") (by decide) (by decide) (by decide)

/-- C1 (counterexample): the claim asserts a non-2xx status resolves every
adapter with an empty sequence, but the Bing adapter never inspects the
status code — a 500 response whose body contains a well-formed RSS item
returns that item. -/
theorem bing_non2xx_items_counterexample :
    ((fetchBingNewsArticles "ai" 3 (.response 500
      "<item><title>T</title><link>L</link><description>D</description><pubDate>P</pubDate></item>")).2).length
      = 1 := by
  rfl

/-- C1 (amended): no exception crosses any adapter boundary (each embedded
adapter is a total function).  Transport failures resolve every adapter
with an empty sequence; a body without a matching RSS item resolves the
Bing adapter empty, a rejected search resolves the Tavily adapter empty,
and an unparseable JSON body resolves the Reddit and YouTube adapters
empty.  A non-2xx status resolves Reddit and YouTube empty; the Bing
adapter ignores the status and parses whatever body arrived. -/
theorem adapter_error_containment (topic now : String) (count : Int)
    (client : Option Unit) (o : RedditOptions) (oy : YouTubeOptions)
    (key : Option String) (stnet : JsonNet) (msg e body : String)
    (status : Nat) (rbody : Except String Json)
    (hbody : strFind body "<item>" 0 = none) (hst : status ≠ 200) :
    (fetchBingNewsArticles topic count (.transportError msg)).2 = []
      ∧ (fetchBingNewsArticles topic count (.response status body)).2 = []
      ∧ (fetchTavilyNewsArticles topic count client (.err msg) now).2 = []
      ∧ (fetchRedditPosts o (.transportError msg)).2 = []
      ∧ (fetchRedditPosts o (.response status rbody)).2 = []
      ∧ (fetchRedditPosts o (.response 200 (.error e))).2 = []
      ∧ (fetchYouTubeVideos oy key (.transportError msg) stnet).2 = []
      ∧ (fetchYouTubeVideos oy key (.response status rbody) stnet).2 = []
      ∧ (fetchYouTubeVideos oy key (.response 200 (.error e)) stnet).2 = [] := by
  have hmatch : ∀ c : Nat, bingExtract body c = [] := by
    intro c
    have hm : bingMatchFrom body 0 = none := by
      simp [bingMatchFrom, hbody]
    unfold bingExtract
    cases c with
    | zero => simp [bingLoop]
    | succ m => simp [bingLoop, hm]
  refine ⟨?_, ?_, ?_, ?_, ?_, ?_, ?_, ?_, ?_⟩
  · by_cases hc : count ≤ 0 <;> simp [fetchBingNewsArticles, hc]
  · by_cases hc : count ≤ 0 <;> simp [fetchBingNewsArticles, hc, hmatch]
  · rw [fetchTavilyNewsArticles]
    split <;> rfl
  · rfl
  · unfold fetchRedditPosts
    dsimp only
    by_cases h3 : 300 ≤ status ∧ status < 400
    · rw [if_pos h3]
    · rw [if_neg h3, if_pos hst]
  · rfl
  · rw [fetchYouTubeVideos]
    by_cases hk : strTruthy key = true
    · rw [if_neg (by simp [hk])]
    · rw [if_pos (by simp [hk])]
  · rw [fetchYouTubeVideos]
    by_cases hk : strTruthy key = true
    · rw [if_neg (by simp [hk])]
      dsimp only
      rw [if_pos hst]
    · rw [if_pos (by simp [hk])]
  · rw [fetchYouTubeVideos]
    by_cases hk : strTruthy key = true
    · rw [if_neg (by simp [hk])]
      dsimp only
      rw [if_neg (by simp)]
    · rw [if_pos (by simp [hk])]

/-- C1 witness: the amended containment theorem at concrete inputs. -/
theorem adapter_error_containment_witness :
    (fetchBingNewsArticles "ai" 3 (.transportError "ECONNRESET")).2 = []
      ∧ (fetchBingNewsArticles "ai" 3 (.response 503 "<html>error</html>")).2 = []
      ∧ (fetchTavilyNewsArticles "ai" 3 (some ()) (.err "ECONNRESET") "d").2 = []
      ∧ (fetchRedditPosts ⟨"q", 5, none, "hot", "day"⟩ (.transportError "ECONNRESET")).2 = []
      ∧ (fetchRedditPosts ⟨"q", 5, none, "hot", "day"⟩
          (.response 503 (.ok (.obj [])))).2 = []
      ∧ (fetchRedditPosts ⟨"q", 5, none, "hot", "day"⟩ (.response 200 (.error "bad"))).2 = []
      ∧ (fetchYouTubeVideos ⟨"q", 5, "relevance", "video"⟩ (some "K")
          (.transportError "ECONNRESET") (.transportError "x")).2 = []
      ∧ (fetchYouTubeVideos ⟨"q", 5, "relevance", "video"⟩ (some "K")
          (.response 503 (.ok (.obj []))) (.transportError "x")).2 = []
      ∧ (fetchYouTubeVideos ⟨"q", 5, "relevance", "video"⟩ (some "K")
          (.response 200 (.error "bad")) (.transportError "x")).2 = [] :=
  adapter_error_containment "ai" "d" 3 (some ()) ⟨"q", 5, none, "hot", "day"⟩
    ⟨"q", 5, "relevance", "video"⟩ (some "K") (.transportError "x")
    "ECONNRESET" "bad" "<html>error</html>" 503 (.ok (.obj []))
    (by rfl) (by decide)

/-- C2 (counterexample): the claim asserts that videos found by a
successful search still surface with zero statistics when the statistics
call fails; in fact a failing statistics call resolves the whole fetch
empty (the same search with a succeeding statistics call that merely
lacks the video's entry returns the video). -/
theorem youtube_stats_drop_counterexample :
    (fetchYouTubeVideos ⟨"q", 5, "relevance", "video"⟩ (some "K")
        (.response 200 (.ok (.obj [("items", .arr [.obj [
          ("id", .obj [("kind", .str "youtube#video"), ("videoId", .str "abc")]),
          ("snippet", .obj [("title", .str "V"), ("description", .str "D"),
            ("channelTitle", .str "C"), ("publishedAt", .str "2024-01-01"),
            ("thumbnails", .obj [("high", .obj [("url", .str "http://t")])])])]])])))
        (.transportError "boom")).2 = []
      ∧ (fetchYouTubeVideos ⟨"q", 5, "relevance", "video"⟩ (some "K")
          (.response 200 (.ok (.obj [("items", .arr [.obj [
            ("id", .obj [("kind", .str "youtube#video"), ("videoId", .str "abc")]),
            ("snippet", .obj [("title", .str "V"), ("description", .str "D"),
              ("channelTitle", .str "C"), ("publishedAt", .str "2024-01-01"),
              ("thumbnails", .obj [("high", .obj [("url", .str "http://t")])])])]])])))
          (.response 200 (.ok (.obj [("items", .arr [])])))).2.length = 1 := by
  exact ⟨rfl, rfl⟩

/-- C2 (amended): when the statistics call fails — transport error or
unparseable body — the whole YouTube fetch resolves with the empty
sequence, dropping the videos found by the search; the zero/default
statistics values apply per video only when the statistics response
parses but has no entry for that video, as witnessed by the concrete
search result returned with viewCount/likeCount/commentCount 0. -/
theorem youtube_stats_best_effort (oy : YouTubeOptions) (key : Option String)
    (snet : JsonNet) (msg e : String) (st : Nat) :
    (fetchYouTubeVideos oy key snet (.transportError msg)).2 = []
      ∧ (fetchYouTubeVideos oy key snet (.response st (.error e))).2 = []
      ∧ (fetchYouTubeVideos ⟨"q", 5, "relevance", "video"⟩ (some "K")
          (.response 200 (.ok (.obj [("items", .arr [.obj [
            ("id", .obj [("kind", .str "youtube#video"), ("videoId", .str "abc")]),
            ("snippet", .obj [("title", .str "V"), ("description", .str "D"),
              ("channelTitle", .str "C"), ("publishedAt", .str "2024-01-01"),
              ("thumbnails", .obj [("high", .obj [("url", .str "http://t")])])])]])])))
          (.response 200 (.ok (.obj [("items", .arr [])])))).2
        = [Json.obj [("title", .str "V"), ("description", .str "D"),
            ("channelTitle", .str "C"), ("publishedAt", .str "2024-01-01"),
            ("thumbnailUrl", .str "http://t"), ("videoId", .str "abc"),
            ("url", .str "https://www.youtube.com/watch?v=abc"),
            ("viewCount", .num 0), ("likeCount", .num 0), ("commentCount", .num 0),
            ("platform", .str "YouTube")]] := by
  refine ⟨?_, ?_, by rfl⟩
  · rw [fetchYouTubeVideos]
    by_cases hk : strTruthy key = true
    · rw [if_neg (by simp [hk])]
      cases snet with
      | transportError m => rfl
      | response sst sbody =>
        dsimp only
        by_cases hst : sst ≠ 200
        · rw [if_pos hst]
        · rw [if_neg hst]
          cases sbody with
          | error er => rfl
          | ok v =>
            dsimp only
            cases hA : ytAfterSearch v with
            | error er => rfl
            | ok oo =>
              cases oo with
              | none => rfl
              | some kp =>
                obtain ⟨kept, ids⟩ := kp
                rfl
    · rw [if_pos (by simp [hk])]
  · rw [fetchYouTubeVideos]
    by_cases hk : strTruthy key = true
    · rw [if_neg (by simp [hk])]
      cases snet with
      | transportError m => rfl
      | response sst sbody =>
        dsimp only
        by_cases hst : sst ≠ 200
        · rw [if_pos hst]
        · rw [if_neg hst]
          cases sbody with
          | error er => rfl
          | ok v =>
            dsimp only
            cases hA : ytAfterSearch v with
            | error er => rfl
            | ok oo =>
              cases oo with
              | none => rfl
              | some kp =>
                obtain ⟨kept, ids⟩ := kp
                rfl
    · rw [if_pos (by simp [hk])]

end ContentBot
